import Mathlib

/-!
Verification of the DiscoveryPrepTool financial extraction pipeline.

This file gives a shallow embedding, in Lean, of the deterministic core of the
DiscoveryPrepTool repository: the client-side financial data extractor
(`FinancialDataExtractor` and the `financial-dashboard` chart template from the
chart factory), the three-stage analysis pipeline orchestrator
(`analyzeDocumentPipeline` / `executeStagesParallel`), and the analysis queue
retry configuration.  JavaScript strings are modelled by Lean `String`
(operating on the character list), JavaScript numbers by `ℚ` (for the inputs
considered here no floating-point rounding is exercised; `NaN` results of
`parseFloat` on digit-free text are modelled as `none`, which is faithful at
every call site because the sources only ever test such results for
truthiness), and JavaScript regular expressions by a small fueled backtracking
matcher over an explicit pattern AST transcribed from the source patterns.
Failure (a thrown exception) is modelled with `Except`.
-/

namespace DPT

/-! ### JavaScript string primitives -/

/-- `String.prototype.toLowerCase`, restricted to ASCII case mapping (the
texts handled by the extractor are ASCII plus currency symbols, which have no
case). -/
def jsToLowerCase (s : String) : String := String.mk (s.toList.map Char.toLower)

/-- `String.prototype.toUpperCase`, ASCII case mapping. -/
def jsToUpperCase (s : String) : String := String.mk (s.toList.map Char.toUpper)

def isInfixList (sub : List Char) : List Char → Bool
  | [] => sub.isEmpty
  | c :: t => sub.isPrefixOf (c :: t) || isInfixList sub t

/-- `String.prototype.includes` (substring containment). -/
def jsIncludes (s sub : String) : Bool := isInfixList sub.toList s.toList

def jsIndexOfAux (sub : List Char) : List Char → Nat → Option Nat
  | [], i => if sub.isEmpty then some i else none
  | c :: t, i =>
    if sub.isPrefixOf (c :: t) then some i else jsIndexOfAux sub t (i + 1)

/-- `String.prototype.indexOf`: index of the first occurrence; the source's
`-1` result is modelled as `none`. -/
def jsIndexOf (s sub : String) : Option Nat := jsIndexOfAux sub.toList s.toList 0

/-- `String.prototype.substring (a, b)` with the JS clamping-and-swapping
behaviour. -/
def jsSubstring (s : String) (a b : Nat) : String :=
  let n := s.length
  let a := min a n
  let b := min b n
  String.mk (((s.toList).drop (min a b)).take (max a b - min a b))

/-- `str.replace(/[…]/g, '')` for a character class: remove every character
satisfying `p`. -/
def removeChars (p : Char → Bool) (s : String) : String :=
  String.mk (s.toList.filter (fun c => !(p c)))

/-- `Array.prototype.join(' ')` over strings. -/
def joinSpace : List String → String
  | [] => ""
  | [s] => s
  | s :: rest => s ++ " " ++ joinSpace rest

/-! ### JavaScript number parsing

`parseInt` / `parseFloat` are modelled as prefix parsers returning `none`
where the source produces `NaN`.  Every call site in the sources either
branches on `isNaN` or tests the result only for truthiness, so identifying
`NaN` with `none` is faithful there. -/

def digitRun : List Char → (List Char × List Char)
  | [] => ([], [])
  | c :: t =>
    if c.isDigit then
      let (ds, rest) := digitRun t
      (c :: ds, rest)
    else ([], c :: t)

def natOfDigits (ds : List Char) : Nat :=
  ds.foldl (fun acc c => acc * 10 + (c.toNat - '0'.toNat)) 0

def isJsSpace (c : Char) : Bool :=
  c = ' ' || c = '\t' || c = '\n' || c = '\r' ||
  c.val = 12 || c.val = 11 || c.val = 0xa0

/-- `parseInt(s)` in base 10 on the strings reaching it in the sources
(optional leading whitespace, then a digit run; no sign occurs there). -/
def jsParseInt (s : String) : Option Nat :=
  let l := s.toList.dropWhile isJsSpace
  match digitRun l with
  | ([], _) => none
  | (ds, _) => some (natOfDigits ds)

/-- `parseFloat(s)` on the cleaned strings reaching it in the sources:
`[digits][.digits]` prefix with at least one digit overall. -/
def jsParseFloat (s : String) : Option ℚ :=
  let l := s.toList.dropWhile isJsSpace
  let (ds, rest) := digitRun l
  let (fs, _) :=
    match rest with
    | '.' :: t => digitRun t
    | _ => ([], rest)
  if ds.isEmpty && fs.isEmpty then none
  else
    some ((natOfDigits ds : ℚ) + (natOfDigits fs : ℚ) / ((10 : ℚ) ^ fs.length))

/-- JavaScript truthiness of a `number | null` value (`null`, `0` and `NaN`
are falsy; `NaN` is modelled as `none`). -/
def truthy : Option ℚ → Bool
  | none => false
  | some v => v != 0

/-! ### A small model of JavaScript regular expressions

The extractor uses a handful of concrete regular expressions.  We transcribe
each one into an explicit AST and execute it with a fueled backtracking
matcher that follows JavaScript semantics: leftmost match, greedy/lazy
quantifiers tried in preference order, alternatives tried left to right,
non-overlapping scans for the `g` flag.  Case-insensitive patterns (`i` flag)
are transcribed with case-insensitive character nodes. -/

inductive RE where
  | eps : RE
  | cls : (Char → Bool) → RE
  | seq : RE → RE → RE
  | alt : RE → RE → RE
  | opt : Bool → RE → RE
  | star : Bool → RE → RE
  | group : Nat → RE → RE

/-- Backtracking matcher in continuation-passing style.  `caps` accumulates
completed capture groups as `(index, text)` pairs; each `group` node carries
the group number it has in the source pattern.  The boolean on `opt`/`star`
selects greedy (`true`) or lazy (`false`) preference.  A `star` iteration
must consume input (every starred node in the transcribed patterns consumes
at least one character, as in the sources). -/
def reMatch : Nat → RE → List Char → List (Nat × List Char) →
    (List Char → List (Nat × List Char) → Option (List Char × List (Nat × List Char))) →
    Option (List Char × List (Nat × List Char))
  | 0, _, _, _, _ => none
  | fuel + 1, re, s, caps, k =>
    match re with
    | .eps => k s caps
    | .cls p =>
      match s with
      | [] => none
      | c :: rest => if p c then k rest caps else none
    | .seq a b => reMatch fuel a s caps (fun s1 c1 => reMatch fuel b s1 c1 k)
    | .alt a b =>
      match reMatch fuel a s caps k with
      | some r => some r
      | none => reMatch fuel b s caps k
    | .opt g a =>
      if g then
        match reMatch fuel a s caps k with
        | some r => some r
        | none => k s caps
      else
        match k s caps with
        | some r => some r
        | none => reMatch fuel a s caps k
    | .star g a =>
      if g then
        match reMatch fuel a s caps (fun s1 c1 =>
            if s1.length < s.length then reMatch fuel (.star g a) s1 c1 k
            else none) with
        | some r => some r
        | none => k s caps
      else
        match k s caps with
        | some r => some r
        | none =>
          reMatch fuel a s caps (fun s1 c1 =>
            if s1.length < s.length then reMatch fuel (.star g a) s1 c1 k
            else none)
    | .group i a =>
      reMatch fuel a s caps (fun s1 c1 =>
        k s1 (c1 ++ [(i, s.take (s.length - s1.length))]))

/-- Fuel bound: proportional to input length; it bounds the depth of the
search, which for the transcribed patterns is linear in the input. -/
def reFuel (s : List Char) : Nat := 4000 * (s.length + 10)

/-- Look up capture group `i` in the accumulated capture list (the latest
assignment wins, as in JavaScript). -/
def grp (caps : List (Nat × String)) (i : Nat) : Option String :=
  (caps.reverse.find? (fun p => p.1 = i)).map (fun p => p.2)

/-- Try to match `re` starting exactly at the head of `s`; on success return
the matched prefix, the capture groups and the remaining input. -/
def reTryAt (re : RE) (s : List Char) :
    Option (String × List (Nat × String) × List Char) :=
  match reMatch (reFuel s) re s [] (fun rest caps => some (rest, caps)) with
  | none => none
  | some (rest, caps) =>
    some (String.mk (s.take (s.length - rest.length)),
      caps.map (fun p => (p.1, String.mk p.2)), rest)

def reFirstAux (re : RE) : List Char → Option (String × List (Nat × String))
  | [] => (reTryAt re []).map (fun r => (r.1, r.2.1))
  | c :: t =>
    match reTryAt re (c :: t) with
    | some (m, g, _) => some (m, g)
    | none => reFirstAux re t

/-- `s.match(re)` without the `g` flag: leftmost match with capture groups
(`match[0]` is the first component, `match[i]` is `grp` at `i`). -/
def reFirstMatch (re : RE) (s : String) : Option (String × List (Nat × String)) :=
  reFirstAux re s.toList

def reGlobalAux (re : RE) : Nat → List Char → List String
  | 0, _ => []
  | fuel + 1, s =>
    match s with
    | [] =>
      match reTryAt re [] with
      | some (m, _, _) => [m]
      | none => []
    | c :: t =>
      match reTryAt re (c :: t) with
      | some (m, _, rest) =>
        if m.isEmpty then m :: reGlobalAux re fuel t
        else m :: reGlobalAux re fuel rest
      | none => reGlobalAux re fuel t

/-- `s.match(re)` with the `g` flag: the list of all non-overlapping leftmost
match strings (the source treats a `null` result and an empty list alike, so
`[]` models both). -/
def reGlobal (re : RE) (s : String) : List String :=
  reGlobalAux re (s.length + 1) s.toList

/-! Pattern building blocks. -/

def chrRE (c : Char) : RE := .cls (fun x => x = c)

def ciChr (c : Char) : RE := .cls (fun x => x.toLower = c.toLower)

def ciLit (s : String) : RE := s.toList.foldr (fun c r => .seq (ciChr c) r) .eps

def reCount : Nat → RE → RE
  | 0, _ => .eps
  | n + 1, a => .seq a (reCount n a)

def reUpTo : Nat → RE → RE
  | 0, _ => .eps
  | n + 1, a => .opt true (.seq a (reUpTo n a))

/-- `a{lo,hi}` (greedy). -/
def reRange (lo hi : Nat) (a : RE) : RE := .seq (reCount lo a) (reUpTo (hi - lo) a)

/-- `a+` (greedy). -/
def rePlus (a : RE) : RE := .seq a (.star true a)

/-- `a{n,}` (greedy). -/
def reAtLeast (n : Nat) (a : RE) : RE := .seq (reCount n a) (.star true a)

def digitC : RE := .cls Char.isDigit

def digitCommaC : RE := .cls (fun c => c.isDigit || c = ',')

def spaceC : RE := .cls isJsSpace

/-- `[^.]` -/
def notDotC : RE := .cls (fun c => !(c = '.'))

/-- `.` without the `s` flag: any character except line terminators. -/
def dotAnyC : RE :=
  .cls (fun c => !(c = '\n' || c = '\r' || c.val = 0x2028 || c.val = 0x2029))

/-! ### Transcribed concrete patterns (chart-factory extractor) -/

/-- `(million|billion|thousand|m|b)` with `/i`, in that alternative order. -/
def scaleWordsMFirst : RE :=
  .alt (ciLit "million") (.alt (ciLit "billion")
    (.alt (ciLit "thousand") (.alt (ciChr 'm') (ciChr 'b'))))

/-- `(billion|million|thousand|b|m)` with `/i`, in that alternative order. -/
def scaleWordsBFirst : RE :=
  .alt (ciLit "billion") (.alt (ciLit "million")
    (.alt (ciLit "thousand") (.alt (ciChr 'b') (ciChr 'm'))))

/-- `/(\$?[\d,]+\.?\d*\s?(million|billion|thousand|m|b))/i` — the static
pattern used by `findFinancialValue`. -/
def financialPattern : RE :=
  .group 1 (.seq (.opt true (chrRE '$'))
    (.seq (rePlus digitCommaC)
      (.seq (.opt true (chrRE '.'))
        (.seq (.star true digitC)
          (.seq (.opt true spaceC) (.group 2 scaleWordsMFirst))))))

/-- `[S$€£¥]` under `/i`. -/
def currSymC : RE :=
  .cls (fun c => c.toLower = 's' || c = '$' || c = '€' || c = '£' || c = '¥')

/-- `fallbackPatterns.revenue`:
`/(revenue|sales|income).*?([S$€£¥]?RM?[\d,]+\.?\d*\s?(million|billion|thousand|m|b))/i`.
Note that in this pattern the `R` of `RM?` is a required character: only the
`M` is optional. -/
def fallbackRevenueRE : RE :=
  .seq (.group 1 (.alt (ciLit "revenue") (.alt (ciLit "sales") (ciLit "income"))))
    (.seq (.star false dotAnyC)
      (.group 2 (.seq (.opt true currSymC)
        (.seq (ciChr 'r') (.seq (.opt true (ciChr 'm'))
          (.seq (rePlus digitCommaC)
            (.seq (.opt true (chrRE '.'))
              (.seq (.star true digitC)
                (.seq (.opt true spaceC) (.group 3 scaleWordsMFirst))))))))))

/-- The static profit fallback pattern (line 885):
`/(?:profit|income|earnings).*?([S$€£¥]?[\d,]+\.?\d*\s?(million|billion|thousand))/i`. -/
def profitFallbackRE : RE :=
  .seq (.alt (ciLit "profit") (.alt (ciLit "income") (ciLit "earnings")))
    (.seq (.star false dotAnyC)
      (.group 1 (.seq (.opt true currSymC)
        (.seq (rePlus digitCommaC)
          (.seq (.opt true (chrRE '.'))
            (.seq (.star true digitC)
              (.seq (.opt true spaceC)
                (.group 2 (.alt (ciLit "million")
                  (.alt (ciLit "billion") (ciLit "thousand")))))))))))

/-- `/(\d{1,3}(?:,\d{3})*(?:\+|k|thousand)?)/gi` — the employee number
pattern. -/
def employeeNumRE : RE :=
  .group 1 (.seq (reRange 1 3 digitC)
    (.seq (.star true (.seq (chrRE ',') (reCount 3 digitC)))
      (.opt true (.alt (chrRE '+') (.alt (ciChr 'k') (ciLit "thousand"))))))

/-- `/(?:employ|workforce|headcount|staff).*?(\d{1,3}(?:,\d{3})*(?:\+|k|thousand)?)/gi`
— the enhanced employee fallback pattern. -/
def employeeFallbackRE : RE :=
  .seq (.alt (ciLit "employ")
      (.alt (ciLit "workforce") (.alt (ciLit "headcount") (ciLit "staff"))))
    (.seq (.star false dotAnyC) employeeNumRE)

/-- `/([\d,]+\.?\d*)\s?(billion|million|thousand|b|m)/i` — the inner value
pattern of the scaled and fiscal revenue strategies. -/
def scaledValueRE : RE :=
  .seq (.group 1 (.seq (rePlus digitCommaC)
      (.seq (.opt true (chrRE '.')) (.star true digitC))))
    (.seq (.opt true spaceC) (.group 2 scaleWordsBFirst))

/-- `/([\d,]+\.?\d*)\s?(million|billion|thousand|m|b)/i` — the inner value
pattern of the isolated profit strategy. -/
def profitValueRE : RE :=
  .seq (.group 1 (.seq (rePlus digitCommaC)
      (.seq (.opt true (chrRE '.')) (.star true digitC))))
    (.seq (.opt true spaceC) (.group 2 scaleWordsMFirst))

/-- The regex literal `/([\\d,]{7,})/` used as inner matcher by the full,
fiscal and context revenue strategies.  In a regex literal `\\d` denotes a
literal backslash followed by the letter `d`, so this class matches only the
characters `\`, `d` and `,` — on document text it never matches. -/
def brokenDigitRunRE : RE :=
  .group 1 (reAtLeast 7 (.cls (fun c => c = '\\' || c = 'd' || c = ',')))

/-! Dynamically assembled revenue/profit patterns.  These interpolate the
resolved currency symbol unescaped, as `` `${currency.symbol}?` `` — so the
quantifier applies only to the last character of the symbol. -/

/-- The pattern fragment produced by `` `${sym}?` ``: all characters of the
symbol except the last, then the last character made optional. -/
def symFragRE (sym : String) : RE :=
  match sym.toList.reverse with
  | [] => .eps
  | last :: revInit =>
    .seq (ciLit (String.mk revInit.reverse)) (.opt true (ciChr last))

/-- `new RegExp(p, 'gi')` for the dynamically assembled patterns.  When the
interpolated currency symbol ends in `'$'` the pattern text contains the
fragment `$?`: a quantifier applied to the `$` assertion, which is a
SyntaxError ("nothing to repeat") in JavaScript, so construction throws.
Otherwise construction succeeds with the transcribed AST. -/
def mkDynRegExp (sym : String) (re : RE) : Except String RE :=
  if sym.toList.getLast? = some '$' then
    .error "SyntaxError: Invalid regular expression: nothing to repeat"
  else
    .ok re

/-- `(?:fiscal\s+\d{4}\s+)?` -/
def fiscalPrefixRE : RE :=
  .opt true (.seq (ciLit "fiscal")
    (.seq (rePlus spaceC) (.seq (reCount 4 digitC) (rePlus spaceC))))

/-- `(?:total\s+|net\s+|operating\s+)?` -/
def revQualifierRE : RE :=
  .opt true (.alt (.seq (ciLit "total") (rePlus spaceC))
    (.alt (.seq (ciLit "net") (rePlus spaceC))
      (.seq (ciLit "operating") (rePlus spaceC))))

/-- Scaled revenue pattern (strategy 1):
`(?:fiscal\s+\d{4}\s+)?(?:total\s+|net\s+|operating\s+)?revenue[^.]*?(SYM?[\d,]+\.?\d*\s?(?:billion|million|thousand|b|m))`
with flags `gi`. -/
def scaledRevenueRE (sym : String) : RE :=
  .seq fiscalPrefixRE (.seq revQualifierRE (.seq (ciLit "revenue")
    (.seq (.star false notDotC)
      (.group 1 (.seq (symFragRE sym)
        (.seq (rePlus digitCommaC)
          (.seq (.opt true (chrRE '.'))
            (.seq (.star true digitC)
              (.seq (.opt true spaceC) scaleWordsBFirst)))))))))

/-- Full-digit revenue pattern (strategy 2):
`(?:fiscal\s+\d{4}\s+)?(?:total\s+|net\s+|operating\s+)?revenue[^.]*?(SYM?[\d,]{7,})`
with flags `gi`. -/
def fullRevenueRE (sym : String) : RE :=
  .seq fiscalPrefixRE (.seq revQualifierRE (.seq (ciLit "revenue")
    (.seq (.star false notDotC)
      (.group 1 (.seq (symFragRE sym) (reAtLeast 7 digitCommaC))))))

/-- Fiscal-year revenue pattern (strategy 3):
`fiscal\s+\d{4}\s+revenue[^.]*?(SYM?[\d,]+(?:\.\d+)?(?:\s?(?:billion|million|thousand|b|m))?[^.]*?)`
with flags `gi`. -/
def fiscalRevenueRE (sym : String) : RE :=
  .seq (ciLit "fiscal") (.seq (rePlus spaceC) (.seq (reCount 4 digitC)
    (.seq (rePlus spaceC) (.seq (ciLit "revenue")
      (.seq (.star false notDotC)
        (.group 1 (.seq (symFragRE sym)
          (.seq (rePlus digitCommaC)
            (.seq (.opt true (.seq (chrRE '.') (rePlus digitC)))
              (.seq (.opt true (.seq (.opt true spaceC) scaleWordsBFirst))
                (.star false notDotC)))))))))))

/-- Context revenue pattern (strategy 4):
`revenue[^.]{0,100}(SYM?[\d,]{7,})|([\d,]{7,})[^.]{0,100}revenue`
with flags `gi`. -/
def contextRevenueRE (sym : String) : RE :=
  .alt
    (.seq (ciLit "revenue") (.seq (reUpTo 100 notDotC)
      (.group 1 (.seq (symFragRE sym) (reAtLeast 7 digitCommaC)))))
    (.seq (.group 2 (reAtLeast 7 digitCommaC))
      (.seq (reUpTo 100 notDotC) (ciLit "revenue")))

/-- Isolated profit keyword pattern:
`(KEYWORD)[^.]*?(SYM?[\d,]+\.?\d*\s?(?:million|billion|thousand|m|b))` with
flags `gi`. -/
def profitKeywordRE (kw sym : String) : RE :=
  .seq (.group 1 (ciLit kw)) (.seq (.star false notDotC)
    (.group 2 (.seq (symFragRE sym)
      (.seq (rePlus digitCommaC)
        (.seq (.opt true (chrRE '.'))
          (.seq (.star true digitC)
            (.seq (.opt true spaceC) scaleWordsMFirst)))))))

/-! ### Currency support (chart factory, second revision) -/

structure CurrencyInfo where
  symbol : String
  code : String
  name : String
deriving DecidableEq, Repr

/-- The `SUPPORTED_CURRENCIES` record, as an association list in the source's
insertion (key) order — the order matters for the `Object.entries` loop in
`detectCurrency`. -/
def SUPPORTED_CURRENCIES : List (String × CurrencyInfo) := [
  ("S$", ⟨"S$", "SGD", "Singapore Dollar"⟩),
  ("$", ⟨"$", "USD", "US Dollar"⟩),
  ("USD", ⟨"$", "USD", "US Dollar"⟩),
  ("€", ⟨"€", "EUR", "Euro"⟩),
  ("EUR", ⟨"€", "EUR", "Euro"⟩),
  ("£", ⟨"£", "GBP", "British Pound"⟩),
  ("GBP", ⟨"£", "GBP", "British Pound"⟩),
  ("¥", ⟨"¥", "JPY", "Japanese Yen"⟩),
  ("JPY", ⟨"¥", "JPY", "Japanese Yen"⟩),
  ("RM", ⟨"RM", "MYR", "Malaysian Ringgit"⟩),
  ("MYR", ⟨"RM", "MYR", "Malaysian Ringgit"⟩),
  ("₹", ⟨"₹", "INR", "Indian Rupee"⟩),
  ("INR", ⟨"₹", "INR", "Indian Rupee"⟩),
  ("CNY", ⟨"¥", "CNY", "Chinese Yuan"⟩),
  ("HK$", ⟨"HK$", "HKD", "Hong Kong Dollar"⟩),
  ("HKD", ⟨"HK$", "HKD", "Hong Kong Dollar"⟩),
  ("฿", ⟨"฿", "THB", "Thai Baht"⟩),
  ("THB", ⟨"฿", "THB", "Thai Baht"⟩),
  ("Rp", ⟨"Rp", "IDR", "Indonesian Rupiah"⟩),
  ("IDR", ⟨"Rp", "IDR", "Indonesian Rupiah"⟩),
  ("₱", ⟨"₱", "PHP", "Philippine Peso"⟩),
  ("PHP", ⟨"₱", "PHP", "Philippine Peso"⟩),
  ("₩", ⟨"₩", "KRW", "South Korean Won"⟩),
  ("KRW", ⟨"₩", "KRW", "South Korean Won"⟩),
  ("A$", ⟨"A$", "AUD", "Australian Dollar"⟩),
  ("AUD", ⟨"A$", "AUD", "Australian Dollar"⟩),
  ("C$", ⟨"C$", "CAD", "Canadian Dollar"⟩),
  ("CAD", ⟨"C$", "CAD", "Canadian Dollar"⟩)]

/-- `SUPPORTED_CURRENCIES[key]` (`none` models `undefined`). -/
def currencyLookup (key : String) : Option CurrencyInfo :=
  (SUPPORTED_CURRENCIES.find? (fun p => p.1 = key)).map (fun p => p.2)

def usdCurrency : CurrencyInfo := ⟨"$", "USD", "US Dollar"⟩

/-- `FinancialDataExtractor.detectCurrency` (part_004 lines 792–814).  The
per-candidate symbol priority list is `['RM', 'S$', '€', '£', '¥', '$']`;
it does not contain `HK$`, `A$` or `C$`. -/
def detectCurrency (valueStr context : String) : Option CurrencyInfo :=
  let combinedText := jsToLowerCase (valueStr ++ " " ++ context)
  let currencyPriority := ["RM", "S$", "€", "£", "¥", "$"]
  match currencyPriority.findSome? (fun symbol =>
      match currencyLookup symbol with
      | some info =>
        if jsIncludes valueStr symbol ||
            jsIncludes combinedText (jsToLowerCase symbol) then some info
        else none
      | none => none) with
  | some info => some info
  | none =>
    match SUPPORTED_CURRENCIES.findSome? (fun p =>
        if jsIncludes combinedText (jsToLowerCase p.1) then some p.2 else none) with
    | some info => some info
    | none => currencyLookup "$"

/-- `FinancialDataExtractor.getExtractedCurrency` (part_004 lines 1003–1024)
on the concatenated analysis text.  The document-level priority list here
does start with the most specific symbols (`HK$`, `A$`, `C$`, `S$`, …).
`none` models the `undefined` that the source returns when a currency code
found in the text (`SGD`) has no entry in `SUPPORTED_CURRENCIES`. -/
def getExtractedCurrencyText (allText : String) : Option CurrencyInfo :=
  let currencyPriority :=
    ["HK$", "A$", "C$", "S$", "RM", "₹", "₱", "฿", "Rp", "₩", "¥", "€", "£", "$"]
  match currencyPriority.findSome? (fun symbol =>
      if jsIncludes allText symbol then some (currencyLookup symbol) else none) with
  | some r => r
  | none =>
    let currencyCodes :=
      ["INR", "CNY", "HKD", "THB", "IDR", "PHP", "KRW", "AUD", "CAD", "MYR",
       "SGD", "EUR", "GBP", "USD"]
    match currencyCodes.findSome? (fun code =>
        if jsIncludes (jsToUpperCase allText) code then some (currencyLookup code)
        else none) with
    | some r => r
    | none => some usdCurrency

/-! ### Financial value parsing and formatting -/

/-- `FinancialDataExtractor.parseFinancialValueEnhanced` (part_004 lines
842–859).  The character class `[S$€£¥RM,\s]` removes the uppercase letters
`S`, `R`, `M`, the currency signs, commas and whitespace; the result is
lowercased and scanned for scale tokens; without any scale token the number
is multiplied by 1,000,000 ("Assume millions if no scale specified"). -/
def enhancedCleanValue (valueStr : String) : String :=
  jsToLowerCase (removeChars (fun c =>
    c = 'S' || c = '$' || c = '€' || c = '£' || c = '¥' || c = 'R' || c = 'M' ||
    c = ',' || isJsSpace c) valueStr)

def parseFinancialValueEnhanced (valueStr : String) : Option ℚ :=
  match jsParseFloat (removeChars (fun c => !(c.isDigit || c = '.'))
      (enhancedCleanValue valueStr)) with
  | none => none
  | some numberPart =>
    if jsIncludes (enhancedCleanValue valueStr) "billion" ||
        jsIncludes (enhancedCleanValue valueStr) "b" then
      some (numberPart * 1000000000)
    else if jsIncludes (enhancedCleanValue valueStr) "million" ||
        jsIncludes (enhancedCleanValue valueStr) "m" then
      some (numberPart * 1000000)
    else if jsIncludes (enhancedCleanValue valueStr) "thousand" ||
        jsIncludes (enhancedCleanValue valueStr) "k" then
      some (numberPart * 1000)
    else
      some (numberPart * 1000000)

/-- `FinancialDataExtractor.parseFinancialValue` (part_004 lines 1060–1073).
There is no `isNaN` guard and no default scale here: without a scale token
the bare number is returned.  The `NaN` produced on digit-free input is
modelled as `none` (it is only ever consumed by truthiness tests or passed
straight through). -/
def parseFinancialValue (valueStr : String) : Option ℚ :=
  let cleanValue := jsToLowerCase (removeChars (fun c =>
    c = '$' || c = ',' || isJsSpace c) valueStr)
  match jsParseFloat (removeChars (fun c => !(c.isDigit || c = '.')) cleanValue) with
  | none => none
  | some numberPart =>
    if jsIncludes cleanValue "billion" || jsIncludes cleanValue "b" then
      some (numberPart * 1000000000)
    else if jsIncludes cleanValue "million" || jsIncludes cleanValue "m" then
      some (numberPart * 1000000)
    else if jsIncludes cleanValue "thousand" || jsIncludes cleanValue "k" then
      some (numberPart * 1000)
    else
      some numberPart

/-- `Number.prototype.toFixed(1)` on the exact rational value (rounds to the
nearest tenth; the claims only evaluate it at decimally-exact inputs). -/
def toFixed1 (q : ℚ) : String :=
  let n : ℤ := round (q * 10)
  toString (n / 10) ++ "." ++ toString (n % 10).natAbs

def groupDigits3 (ds : List Char) : List Char :=
  let r := ds.reverse
  let rec go : List Char → List Char
    | a :: b :: c :: d :: t => a :: b :: c :: ',' :: go (d :: t)
    | l => l
  (go r).reverse

/-- `Number.prototype.toLocaleString()` (en-US grouping; fractional values —
which do not occur at the call sites exercised here — are rendered with up to
three rounded fraction digits as in the default locale options). -/
def jsToLocaleString (q : ℚ) : String :=
  let sign := if q < 0 then "-" else ""
  let aq := |q|
  let ip : Nat := aq.floor.toNat
  let intPart := String.mk (groupDigits3 (toString ip).toList)
  let fracMilli : ℤ := round ((aq - (ip : ℚ)) * 1000)
  if fracMilli = 0 then sign ++ intPart
  else
    let fs := toString fracMilli.natAbs
    let fs := String.mk (List.replicate (3 - fs.length) '0') ++ fs
    let fs := String.mk (fs.toList.reverse.dropWhile (fun c => c = '0')).reverse
    sign ++ intPart ++ "." ++ fs

/-- `Number.prototype.toString()` for the (unreachable) default case of the
formatter. -/
def jsNumToString (q : ℚ) : String :=
  if q.den = 1 then toString q.num else toString q

/-- `FinancialDataExtractor.formatFinancialValue` (part_004 lines 977–1001).
`fmtType` is the `'currency' | 'number' | 'percentage'` tag. -/
def formatFinancialValue (value : Option ℚ) (fmtType : String)
    (currency : Option CurrencyInfo) : String :=
  match value with
  | none => "N/A"
  | some v =>
    if fmtType = "currency" then
      let currencySymbol :=
        match currency with
        | some c => if c.symbol = "" then "$" else c.symbol
        | none => "$"
      if v ≥ 1000000000 then currencySymbol ++ toFixed1 (v / 1000000000) ++ "B"
      else if v ≥ 1000000 then currencySymbol ++ toFixed1 (v / 1000000) ++ "M"
      else if v ≥ 1000 then currencySymbol ++ toFixed1 (v / 1000) ++ "K"
      else currencySymbol ++ jsToLocaleString v
    else if fmtType = "number" then jsToLocaleString v
    else if fmtType = "percentage" then toFixed1 v ++ "%"
    else jsNumToString v

/-! ### Candidate matches and best-match selection -/

inductive Confidence where
  | high : Confidence
  | medium : Confidence
  | low : Confidence
deriving DecidableEq, Repr

/-- The `confidenceOrder` table `{ high: 3, medium: 2, low: 1 }`. -/
def confidenceOrder : Confidence → Nat
  | .high => 3
  | .medium => 2
  | .low => 1

/-- The Normalizer-internal `FinancialMatch` candidate.  The source stores
`year` as an optional 4-digit string and applies `parseInt` inside the
comparator; we store the parsed number directly. -/
structure FinancialMatch where
  value : ℚ
  currency : CurrencyInfo
  context : String
  year : Option Nat
  confidence : Confidence
deriving DecidableEq, Repr

/-- The confidence/context tail of the comparator (part_004 lines 782–788):
`-confDiff` when the confidence tiers differ, else
`a.context.length - b.context.length`. -/
def matchCmpTie (a b : FinancialMatch) : ℤ :=
  if (confidenceOrder a.confidence : ℤ) - (confidenceOrder b.confidence : ℤ) ≠ 0 then
    -((confidenceOrder a.confidence : ℤ) - (confidenceOrder b.confidence : ℤ))
  else (a.context.length : ℤ) - (b.context.length : ℤ)

/-- The comparator passed to `matches.sort` in
`FinancialDataExtractor.selectBestMatch` (part_004 lines 768–790): latest
year first (a candidate with a year before one without), then the
confidence/context tail. -/
def matchCmp (a b : FinancialMatch) : ℤ :=
  match a.year, b.year with
  | some yearA, some yearB =>
    if yearA ≠ yearB then (yearB : ℤ) - (yearA : ℤ) else matchCmpTie a b
  | some _, none => -1
  | none, some _ => 1
  | none, none => matchCmpTie a b

/-- One fold step of taking the first element of the stably sorted array:
keep the current best unless the new element is strictly smaller under the
comparator. -/
def betterOf (best x : FinancialMatch) : FinancialMatch :=
  if matchCmp x best < 0 then x else best

/-- `FinancialDataExtractor.selectBestMatch`: `matches.sort(cmp)[0]`.
JavaScript's `Array.prototype.sort` is stable and `matchCmp` is induced by a
total preorder (a lexicographic key, see `matchKey` below), so the first
element of the sorted array is the earliest element that is minimal under the
comparator — which is exactly what the fold computes. -/
def selectBestMatch : List FinancialMatch → Option FinancialMatch
  | [] => none
  | [m] => some m
  | m :: rest => some (rest.foldl betterOf m)

/-! ### Analysis data (client shape consumed by the chart factory) -/

/-- The client `HRInsight`; the optional presentation fields
(`sourceContext?`, `confidence?`, `pageReference?`, `strategicImplications?`)
are never read by the extraction code embedded here and are omitted. -/
structure HRInsight where
  dataPoint : String
  hrRelevance : String
  conversationStarter : String
deriving DecidableEq, Repr

/-- The client `AnalysisData` consumed by `FinancialDataExtractor`; the
optional `financialMetrics?` / `extractionQuality?` fields are never read by
the embedded code and are omitted. -/
structure AnalysisData where
  summary : String
  businessContext : List HRInsight
  workforceInsights : List HRInsight
  operationalChallenges : List HRInsight
  strategicPeopleInitiatives : List HRInsight
deriving DecidableEq, Repr

/-- `FinancialDataExtractor.getAllAnalysisText` (part_004 lines 1026–1038). -/
def getAllAnalysisText (d : AnalysisData) : String :=
  let allInsights := d.businessContext ++ d.workforceInsights ++
    d.operationalChallenges ++ d.strategicPeopleInitiatives
  joinSpace (d.summary ::
    allInsights.map (fun insight => insight.dataPoint ++ " " ++ insight.hrRelevance))

/-- `FinancialDataExtractor.getExtractedCurrency` on an `AnalysisData`. -/
def getExtractedCurrency (d : AnalysisData) : Option CurrencyInfo :=
  getExtractedCurrencyText (getAllAnalysisText d)

/-! ### Keyword tables -/

def financialKeywordsRevenue : List String :=
  ["total revenue", "net sales", "operating revenue", "turnover", "total income"]

def financialKeywordsProfit : List String :=
  ["net profit", "net income", "profit after tax", "net earnings"]

def financialKeywordsEmployees : List String :=
  ["total employees", "workforce", "headcount", "number of employees", "staff count"]

/-! ### Fallback value search -/

/-- `FinancialDataExtractor.findFinancialValue` (part_004 lines 1040–1058):
look for a financial value in a context window around the keyword.
`Math.max(0, i - 50)` is Nat subtraction here. -/
def findFinancialValue (text keyword : String) : Option ℚ :=
  match jsIndexOf text keyword with
  | none => none
  | some keywordIndex =>
    let contextStart := keywordIndex - 50
    let contextEnd := min text.length (keywordIndex + 100)
    let context := jsSubstring text contextStart contextEnd
    match reFirstMatch financialPattern context with
    | some r => (grp r.2 1).bind parseFinancialValue
    | none => none

/-- The keyword loop shared by the revenue and profit fallbacks:
`const match = findFinancialValue(allText, keyword); if (match) return match;`
— a falsy result (`null`, `0`, `NaN`) moves on to the next keyword. -/
def firstKeywordValue (text : String) : List String → Option ℚ
  | [] => none
  | kw :: rest =>
    match findFinancialValue text kw with
    | some v => if v ≠ 0 then some v else firstKeywordValue text rest
    | none => firstKeywordValue text rest

/-- `FinancialDataExtractor.extractRevenueFallback` (part_004 lines 861–875).
The final branch returns `parseFinancialValue(patternMatch[2])` without a
truthiness check. -/
def extractRevenueFallback (d : AnalysisData) : Option ℚ :=
  let allText := jsToLowerCase (getAllAnalysisText d)
  match firstKeywordValue allText financialKeywordsRevenue with
  | some v => some v
  | none =>
    match reFirstMatch fallbackRevenueRE allText with
    | some r => (grp r.2 2).bind parseFinancialValue
    | none => none

/-- `FinancialDataExtractor.extractProfitFallback` (part_004 lines 877–892). -/
def extractProfitFallback (d : AnalysisData) : Option ℚ :=
  let allText := jsToLowerCase (getAllAnalysisText d)
  match firstKeywordValue allText financialKeywordsProfit with
  | some v => some v
  | none =>
    match reFirstMatch profitFallbackRE allText with
    | some r => (grp r.2 1).bind parseFinancialValue
    | none => none

/-! ### Multi-strategy revenue extraction -/

/-- `FinancialDataExtractor.validateRevenueRange`: $1M to $1T. -/
def validateRevenueRange (value : ℚ) : Bool :=
  value ≥ 1000000 && value ≤ 1000000000000

/-- Body of the match loop of `extractRevenueScaled`: on the first match
whose inner value pattern succeeds, return `parseFinancialValueEnhanced`
of `` `${valueMatch[1]} ${valueMatch[2]}` `` (whatever it yields). -/
def scaledMatchLoop : List String → Option ℚ
  | [] => none
  | m :: rest =>
    match reFirstMatch scaledValueRE m with
    | some r =>
      parseFinancialValueEnhanced (((grp r.2 1).getD "") ++ " " ++ ((grp r.2 2).getD ""))
    | none => scaledMatchLoop rest

/-- `FinancialDataExtractor.extractRevenueScaled` (part_004 lines 557–575).
The pattern is assembled at runtime from the extracted currency symbol; see
`mkDynRegExp` for the failure mode, and the strategy also throws when
`getExtractedCurrency` produced `undefined`. -/
def extractRevenueScaled (d : AnalysisData) : Except String (Option ℚ) := do
  let allText := getAllAnalysisText d
  match getExtractedCurrency d with
  | none => .error "TypeError: cannot read properties of undefined"
  | some currency => do
    let pat ← mkDynRegExp currency.symbol (scaledRevenueRE currency.symbol)
    .ok (scaledMatchLoop (reGlobal pat allText))

/-- Body of the match loop of `extractRevenueFull`: the inner regex literal
is the broken `[\\d,]` class; a parsed value is returned only when
`>= 1000000`. -/
def fullMatchLoop : List String → Option ℚ
  | [] => none
  | m :: rest =>
    match reFirstMatch brokenDigitRunRE m with
    | some r =>
      match ((grp r.2 1).map (removeChars (fun c => c = ','))).bind jsParseInt with
      | some value =>
        if (value : ℚ) ≥ 1000000 then some (value : ℚ) else fullMatchLoop rest
      | none => fullMatchLoop rest
    | none => fullMatchLoop rest

/-- `FinancialDataExtractor.extractRevenueFull` (part_004 lines 577–598). -/
def extractRevenueFull (d : AnalysisData) : Except String (Option ℚ) := do
  let allText := getAllAnalysisText d
  match getExtractedCurrency d with
  | none => .error "TypeError: cannot read properties of undefined"
  | some currency => do
    let pat ← mkDynRegExp currency.symbol (fullRevenueRE currency.symbol)
    .ok (fullMatchLoop (reGlobal pat allText))

/-- Body of the match loop of `extractRevenueFiscal`: first the scaled inner
value pattern (returned unconditionally), then the broken full-digit inner
pattern (returned when `>= 1000000`). -/
def fiscalMatchLoop : List String → Option ℚ
  | [] => none
  | m :: rest =>
    match reFirstMatch scaledValueRE m with
    | some r =>
      parseFinancialValueEnhanced (((grp r.2 1).getD "") ++ " " ++ ((grp r.2 2).getD ""))
    | none =>
      match reFirstMatch brokenDigitRunRE m with
      | some r =>
        match ((grp r.2 1).map (removeChars (fun c => c = ','))).bind jsParseInt with
        | some value =>
          if (value : ℚ) ≥ 1000000 then some (value : ℚ) else fiscalMatchLoop rest
        | none => fiscalMatchLoop rest
      | none => fiscalMatchLoop rest

/-- `FinancialDataExtractor.extractRevenueFiscal` (part_004 lines 600–628). -/
def extractRevenueFiscal (d : AnalysisData) : Except String (Option ℚ) := do
  let allText := getAllAnalysisText d
  match getExtractedCurrency d with
  | none => .error "TypeError: cannot read properties of undefined"
  | some currency => do
    let pat ← mkDynRegExp currency.symbol (fiscalRevenueRE currency.symbol)
    .ok (fiscalMatchLoop (reGlobal pat allText))

/-- `FinancialDataExtractor.extractRevenueContext` (part_004 lines 630–651). -/
def extractRevenueContext (d : AnalysisData) : Except String (Option ℚ) := do
  let allText := getAllAnalysisText d
  match getExtractedCurrency d with
  | none => .error "TypeError: cannot read properties of undefined"
  | some currency => do
    let pat ← mkDynRegExp currency.symbol (contextRevenueRE currency.symbol)
    .ok (fullMatchLoop (reGlobal pat allText))

/-- The strategy loop of `extractRevenueMultiStrategy` (part_004 lines
543–552): each strategy runs inside `try { … } catch`, so a thrown error is
absorbed and the loop moves to the next strategy; a truthy result is returned
only when it passes validation. -/
def runStrategies (validate : ℚ → Bool) : List (Except String (Option ℚ)) → Option ℚ
  | [] => none
  | s :: rest =>
    match s with
    | .error _ => runStrategies validate rest
    | .ok none => runStrategies validate rest
    | .ok (some v) =>
      if v ≠ 0 && validate v then some v else runStrategies validate rest

/-- `FinancialDataExtractor.extractRevenueMultiStrategy` (part_004 lines
535–555). -/
def extractRevenueMultiStrategy (d : AnalysisData) : Option ℚ :=
  runStrategies validateRevenueRange
    [extractRevenueScaled d, extractRevenueFull d,
     extractRevenueFiscal d, extractRevenueContext d]

/-- `FinancialDataExtractor.extractRevenue` (part_004 lines 521–533) in
`Except` form: the outer `try { … } catch` falls back to the original logic.
`extractRevenueMultiStrategy` is total (its own loop catches every strategy
error), so the entry point never propagates an exception. -/
def extractRevenueE (d : AnalysisData) : Except String (Option ℚ) :=
  match extractRevenueMultiStrategy d with
  | some v => if v ≠ 0 then .ok (some v) else .ok (extractRevenueFallback d)
  | none => .ok (extractRevenueFallback d)

/-- The `number | null` value produced by `extractRevenue`. -/
def extractRevenue (d : AnalysisData) : Option ℚ :=
  match extractRevenueE d with
  | .ok r => r
  | .error _ => none

/-! ### Profit extraction -/

/-- The match loop of `extractProfitIsolated` (part_004 lines 683–698):
matches whose context mentions revenue/sales are skipped; the first truthy
parsed value is returned. -/
def profitMatchLoop : List String → Option ℚ
  | [] => none
  | m :: rest =>
    if jsIncludes (jsToLowerCase m) "revenue" || jsIncludes (jsToLowerCase m) "sales" then
      profitMatchLoop rest
    else
      match reFirstMatch profitValueRE m with
      | some r =>
        match parseFinancialValueEnhanced
            (((grp r.2 1).getD "") ++ " " ++ ((grp r.2 2).getD "")) with
        | some value => if value ≠ 0 then some value else profitMatchLoop rest
        | none => profitMatchLoop rest
      | none => profitMatchLoop rest

/-- The keyword loop of `extractProfitIsolated`; the pattern for each keyword
is built by `new RegExp` inside the loop, so a bad currency symbol throws on
the first keyword. -/
def profitKeywordLoop (allText sym : String) : List String → Except String (Option ℚ)
  | [] => .ok none
  | kw :: rest => do
    let pat ← mkDynRegExp sym (profitKeywordRE kw sym)
    match profitMatchLoop (reGlobal pat allText) with
    | some v => .ok (some v)
    | none => profitKeywordLoop allText sym rest

/-- `FinancialDataExtractor.extractProfitIsolated` (part_004 lines 672–702). -/
def extractProfitIsolated (d : AnalysisData) : Except String (Option ℚ) :=
  let allText := getAllAnalysisText d
  let profitKeywords := ["net profit", "net income", "profit after tax", "net earnings"]
  match getExtractedCurrency d with
  | none => .error "TypeError: cannot read properties of undefined"
  | some currency => profitKeywordLoop allText currency.symbol profitKeywords

/-- `FinancialDataExtractor.extractProfit` (part_004 lines 658–670) in
`Except` form: the `try { … } catch` absorbs any error from the isolated
strategy and falls back to the original logic. -/
def extractProfitE (d : AnalysisData) : Except String (Option ℚ) :=
  match extractProfitIsolated d with
  | .error _ => .ok (extractProfitFallback d)
  | .ok r => if truthy r then .ok r else .ok (extractProfitFallback d)

/-- The `number | null` value produced by `extractProfit`. -/
def extractProfit (d : AnalysisData) : Option ℚ :=
  match extractProfitE d with
  | .ok r => r
  | .error _ => none

/-! ### Employee extraction -/

def notAvailablePatterns : List String :=
  ["not explicitly stated", "not stated", "not mentioned", "not disclosed",
   "not provided", "not available", "not specified"]

/-- The range guard of `extractEmployees`
(`if (value >= 500 && value <= 500000) return value`): values outside the
plausible range for large corporations are discarded. -/
def employeeRangeFilter (value : Nat) : Option Nat :=
  if 500 ≤ value && value ≤ 500000 then some value else none

/-- One step of the employee number loops:
`parseInt(match.replace(/[,+k]/g, ''))`, multiply by 1000 on a `k`/`thousand`
suffix, and accept only values in range. -/
def employeeValue (m : String) : Option Nat :=
  match jsParseInt (removeChars (fun c => c = ',' || c = '+' || c = 'k') m) with
  | none => none
  | some v0 =>
    employeeRangeFilter
      (if jsIncludes (jsToLowerCase m) "k" || jsIncludes (jsToLowerCase m) "thousand" then
        v0 * 1000
      else v0)

/-- The per-context match loop of `extractEmployees` (part_004 lines
930–944). -/
def employeeMatchesLoop : List String → Option Nat
  | [] => none
  | m :: rest =>
    match employeeValue m with
    | some v => some v
    | none => employeeMatchesLoop rest

/-- The keyword loop of `extractEmployees` (part_004 lines 919–946): the
keyword index is searched in the lowercased text and the context window is
cut (with `Math.max`/`Math.min` clamping) from the original text. -/
def employeesKeywordLoop (allText lowerText : String) : List String → Option Nat
  | [] => none
  | kw :: rest =>
    match jsIndexOf lowerText kw with
    | some keywordIndex =>
      let contextStart := keywordIndex - 50
      let contextEnd := min allText.length (keywordIndex + 150)
      let context := jsSubstring allText contextStart contextEnd
      match employeeMatchesLoop (reGlobal employeeNumRE context) with
      | some v => some v
      | none => employeesKeywordLoop allText lowerText rest
    | none => employeesKeywordLoop allText lowerText rest

/-- The fallback loop of `extractEmployees` (part_004 lines 948–967): each
global match of the enhanced pattern is re-matched for its first number. -/
def employeeFallbackLoop : List String → Option Nat
  | [] => none
  | fm :: rest =>
    match reFirstMatch employeeNumRE fm with
    | some r =>
      match (grp r.2 1).bind employeeValue with
      | some v => some v
      | none => employeeFallbackLoop rest
    | none => employeeFallbackLoop rest

/-- `FinancialDataExtractor.extractEmployees` (part_004 lines 894–970).
When the text has employee context and explicitly states the figure is not
available, extraction short-circuits to `null` before any number pattern
runs. -/
def extractEmployees (d : AnalysisData) : Option Nat :=
  let allText := getAllAnalysisText d
  let lowerText := jsToLowerCase allText
  let hasEmployeeContext := jsIncludes lowerText "employee" ||
    jsIncludes lowerText "workforce" || jsIncludes lowerText "headcount"
  if hasEmployeeContext && notAvailablePatterns.any (fun p => jsIncludes lowerText p) then
    none
  else
    match employeesKeywordLoop allText lowerText financialKeywordsEmployees with
    | some v => some v
    | none => employeeFallbackLoop (reGlobal employeeFallbackRE allText)

/-- `FinancialDataExtractor.calculateProfitMargin`. -/
def calculateProfitMargin (revenue profit : ℚ) : ℚ :=
  if revenue = 0 then 0 else profit / revenue * 100

/-! ### The financial-dashboard chart template -/

structure ChartDataPoint where
  name : String
  value : ℚ
  description : Option String
  category : Option String
deriving DecidableEq, Repr

structure ChartConfig where
  chartType : String
  title : String
  data : List ChartDataPoint
  colors : List String
  description : String
  insights : List HRInsight
deriving DecidableEq, Repr

/-- The financial validation step of the `financial-dashboard` template
(part_004 lines 1150–1154): `if (revenue && profit && profit > revenue)
profit = null;` (with a `console.warn`, no other effect). -/
def chartValidatedProfit : Option ℚ → Option ℚ → Option ℚ
  | some r, some p => if r ≠ 0 && p ≠ 0 && p > r then none else some p
  | _, p => p

/-- `x || 0` for a `number | null` chart value. -/
def orZero (o : Option ℚ) : ℚ := if truthy o then o.getD 0 else 0

/-- The body of `chartTemplates['financial-dashboard'].generate` (part_004
lines 1144–1204) after the three extractor calls: takes the extracted values
and produces the chart configuration.  `currencyOpt` is the result of
`getExtractedCurrency`; when it is `undefined` and the template does reach
the final object construction, `` `${currency.code}` `` throws a
`TypeError`. -/
def financialDashboardCore (revenue profit0 employees : Option ℚ)
    (currencyOpt : Option CurrencyInfo) (businessContext : List HRInsight) :
    Except String (Option ChartConfig) :=
  let profit := chartValidatedProfit revenue profit0
  let profitMargin :=
    if truthy revenue && truthy profit then
      some (calculateProfitMargin (revenue.getD 0) (profit.getD 0))
    else none
  let financialData : List ChartDataPoint := [
    ⟨"Total Revenue", orZero revenue,
      some (if truthy revenue then formatFinancialValue revenue "currency" currencyOpt
            else "Data not available"), some "financial"⟩,
    ⟨"Net Profit", orZero profit,
      some (if truthy profit then formatFinancialValue profit "currency" currencyOpt
            else "Data not available"), some "financial"⟩,
    ⟨"Total Employees", orZero employees,
      some (if truthy employees then formatFinancialValue employees "number" none
            else "Data not available"), some "workforce"⟩,
    ⟨"Profit Margin", orZero profitMargin,
      some (if truthy profitMargin then formatFinancialValue profitMargin "percentage" none
            else "Data not available"), some "financial"⟩]
  let hasFinancialData := truthy revenue || truthy profit || truthy employees
  if !hasFinancialData then .ok none
  else
    match currencyOpt with
    | none => .error "TypeError: cannot read properties of undefined"
    | some currency =>
      .ok (some ⟨"metric-cards", "Financial Key Metrics", financialData,
        ["#3b82f6", "#10b981", "#f59e0b", "#8b5cf6"],
        "Key financial indicators extracted from the annual report (" ++
          currency.code ++ ")",
        businessContext.filter (fun insight =>
          jsIncludes (jsToLowerCase insight.dataPoint) "revenue" ||
          jsIncludes (jsToLowerCase insight.dataPoint) "profit" ||
          jsIncludes (jsToLowerCase insight.dataPoint) "income" ||
          jsIncludes (jsToLowerCase insight.dataPoint) "employ")⟩)

/-- `chartTemplates['financial-dashboard'].generate` wired to the extractor
calls, as in the source. -/
def financialDashboardGenerate (d : AnalysisData) : Except String (Option ChartConfig) :=
  financialDashboardCore (extractRevenue d) (extractProfit d)
    ((extractEmployees d).map (fun n => (n : ℚ)))
    (getExtractedCurrency d) d.businessContext

/-! ### Pipeline orchestrator (part_008, first revision)

The stage extractors call an external generative service; a stage invocation
is modelled by its outcome (`Except String α`).  Wall-clock stage durations
come from `Date.now()` and are environmental; they are modelled as 0. -/

structure BOQuality where
  confidence : String
  completeness : String
  sourceQuality : String
deriving DecidableEq, Repr

structure BusinessOverview where
  companyOverview : String
  businessModel : String
  revenueStreams : List String
  keyMetrics : List String
  operationalChallenges : List String
  hrPayrollRelevance : String
  industryClassification : String
  competitivePosition : String
  extractionQuality : BOQuality
deriving DecidableEq, Repr

structure RevenueRec where
  current : Option String
  previous : Option String
  growth : Option String
  currency : String
  confidence : String
  sourceText : String
  extractionMethod : String
deriving DecidableEq, Repr

structure ProfitLossRec where
  plType : String
  amount : Option String
  margin : Option String
  confidence : String
  sourceText : String
  validationFlags : List String
deriving DecidableEq, Repr

structure EmployeesRec where
  total : Option Nat
  previousYear : Option Nat
  growth : Option String
  confidence : String
  sourceText : String
deriving DecidableEq, Repr

structure AssetsRec where
  total : Option String
  currency : String
  confidence : String
  sourceText : String
deriving DecidableEq, Repr

structure ValidationRec where
  revenueReasonable : Bool
  profitMarginReasonable : Bool
  crossCheckPassed : Bool
  flaggedForReview : Bool
  notes : String
  extractionMethod : String
deriving DecidableEq, Repr

/-- The server-side `FinancialMetrics` (financial-extractor.ts, first
revision).  Monetary amounts are decimal strings in base units there
(`"2610000000"`); the `type` field of `profitLoss` is named `plType` because
`type` is reserved-ish in this development. -/
structure FinancialMetrics where
  revenue : RevenueRec
  profitLoss : ProfitLossRec
  employees : EmployeesRec
  assets : AssetsRec
  validation : ValidationRec
deriving DecidableEq, Repr

structure HRQuality where
  overallConfidence : String
  dataCompleteness : String
deriving DecidableEq, Repr

structure HRInsights where
  summary : String
  businessContext : List HRInsight
  workforceInsights : List HRInsight
  operationalChallenges : List HRInsight
  strategicPeopleInitiatives : List HRInsight
  extractionQuality : HRQuality
deriving DecidableEq, Repr

structure ProcessingStats where
  stage0Duration : Nat
  stage1Duration : Nat
  stage2Duration : Nat
  totalDuration : Nat
  stage0Success : Bool
  stage1Success : Bool
  stage2Success : Bool
  executionMode : Option String
  partialSuccess : Option Bool
deriving DecidableEq, Repr

structure PipelineResult where
  businessOverview : BusinessOverview
  financialMetrics : FinancialMetrics
  hrInsights : HRInsights
  processingStats : ProcessingStats
deriving DecidableEq, Repr

/-- The staged failure thrown by the sequential pipeline; the source encodes
it in the `Error` message
`` `Analysis pipeline failed at ${stage} stage: ${message}` ``. -/
structure StageFailure where
  stage : String
  message : String
deriving DecidableEq, Repr

/-- `getDefaultBusinessOverview` (part_008 lines 412–428). -/
def getDefaultBusinessOverview : BusinessOverview :=
  { companyOverview := "Unable to extract company overview from document"
    businessModel := "Business model extraction failed"
    revenueStreams := []
    keyMetrics := []
    operationalChallenges := []
    hrPayrollRelevance := "HR/Payroll relevance analysis unavailable"
    industryClassification := "Unknown"
    competitivePosition := "Competitive position analysis unavailable"
    extractionQuality :=
      ⟨"low", "limited", "Fallback mode - business overview extraction failed"⟩ }

/-- The `defaultFinancials` constant of `extractFinancialMetricsRelaxed`
(part_008 lines 435–474): all-null metrics, low confidence,
`flaggedForReview: true`. -/
def defaultFinancials : FinancialMetrics :=
  { revenue := ⟨none, none, none, "USD", "low",
      "Unable to extract - using defaults", "direct_statement"⟩
    profitLoss := ⟨"profit", none, none, "low",
      "Unable to extract - using defaults", ["fallback_mode"]⟩
    employees := ⟨none, none, none, "low", "Unable to extract - using defaults"⟩
    assets := ⟨none, "USD", "low", "Unable to extract - using defaults"⟩
    validation := ⟨false, false, false, true,
      "Fallback mode - limited financial data available", "direct_statement"⟩ }

/-- `createFailsafeMetrics` (financial-extractor.ts lines 133–174): the
failsafe record returned when extraction or parsing fails; it sets
`flaggedForReview: true` with a system-error note. -/
def createFailsafeMetrics (errorMessage : String) : FinancialMetrics :=
  { revenue := ⟨none, none, none, "USD", "low", "Extraction failed", "calculated"⟩
    profitLoss := ⟨"profit", none, none, "low", "Extraction failed", ["system_error"]⟩
    employees := ⟨none, none, none, "low", "Extraction failed"⟩
    assets := ⟨none, "USD", "low", "Extraction failed"⟩
    validation := ⟨false, false, false, true,
      "System error: " ++ errorMessage, "calculated"⟩ }

/-- `extractFinancialMetricsRelaxed` (part_008 lines 431–484): retry the
financial extraction once; on failure return `defaultFinancials`. -/
def extractFinancialMetricsRelaxed (retry : Except String FinancialMetrics) :
    FinancialMetrics :=
  match retry with
  | .ok m => m
  | .error _ => defaultFinancials

/-- The sequential body of `analyzeDocumentPipeline` (part_008 lines
185–307).  The three stages run inside one `try` block; its `catch` rethrows
with a stage label computed from the success flags
(`stage0Success ? (stage1Success ? "hr" : "financial") : "business_overview"`),
so the first failing stage aborts the whole run — there is no per-stage
fallback here. -/
def executeSequential (s0 : Except String BusinessOverview)
    (s1 : Except String FinancialMetrics) (s2 : Except String HRInsights) :
    Except StageFailure PipelineResult :=
  match s0 with
  | .error e => .error ⟨"business_overview", e⟩
  | .ok businessOverview =>
    match s1 with
    | .error e => .error ⟨"financial", e⟩
    | .ok financialMetrics =>
      match s2 with
      | .error e => .error ⟨"hr", e⟩
      | .ok hrInsights =>
        .ok { businessOverview := businessOverview
              financialMetrics := financialMetrics
              hrInsights := hrInsights
              processingStats :=
                ⟨0, 0, 0, 0, true, true, true, some "sequential", none⟩ }

/-- `executeStagesParallel` (part_008 lines 57–160): all three stages are
dispatched and settled; a failed Stage 0 is replaced by the default business
overview, a failed Stage 1 by the relaxed extraction (which re-attempts the
extractor once, outcome `s1retry`), and a failed Stage 2 throws
`Error("HR insights generation failed - this is required for analysis")`. -/
def executeStagesParallel (s0 : Except String BusinessOverview)
    (s1 : Except String FinancialMetrics) (s1retry : Except String FinancialMetrics)
    (s2 : Except String HRInsights) : Except String PipelineResult :=
  let bo :=
    match s0 with
    | .ok b => (b, true, false)
    | .error _ => (getDefaultBusinessOverview, false, true)
  let fm :=
    match s1 with
    | .ok m => (m, true, false)
    | .error _ => (extractFinancialMetricsRelaxed s1retry, false, true)
  match s2 with
  | .error _ => .error "HR insights generation failed - this is required for analysis"
  | .ok hrInsights =>
    .ok { businessOverview := bo.1
          financialMetrics := fm.1
          hrInsights := hrInsights
          processingStats :=
            ⟨0, 0, 0, 0, bo.2.1, fm.2.1, true, some "parallel",
              some (bo.2.2 || fm.2.2)⟩ }

/-- `analyzeDocumentPipeline` (part_008 lines 162–307): with the parallel
feature flag on, try the parallel pipeline and fall back to a fresh
sequential run on any parallel failure; otherwise run sequentially.  The
parallel and sequential runs invoke the stages separately, so each gets its
own stage outcomes. -/
def analyzeDocumentPipeline (parallelFlag : Bool)
    (p0 : Except String BusinessOverview) (p1 p1retry : Except String FinancialMetrics)
    (p2 : Except String HRInsights)
    (s0 : Except String BusinessOverview) (s1 : Except String FinancialMetrics)
    (s2 : Except String HRInsights) : Except StageFailure PipelineResult :=
  if parallelFlag then
    match executeStagesParallel p0 p1 p1retry p2 with
    | .ok r => .ok r
    | .error _ => executeSequential s0 s1 s2
  else executeSequential s0 s1 s2

/-! ### Analysis queue retry configuration (analysis-queue.ts) -/

structure BackoffOptions where
  backoffType : String
  delay : Nat
deriving DecidableEq, Repr

structure JobOptions where
  removeOnComplete : Nat
  removeOnFail : Nat
  attempts : Nat
  backoff : BackoffOptions
deriving DecidableEq, Repr

/-- The `defaultJobOptions` passed to the BullMQ queue in `initializeQueue`
(analysis-queue.ts lines 59–70): 3 attempts with exponential backoff, base
delay 2000 ms. -/
def analysisQueueJobOptions : JobOptions := ⟨50, 20, 3, ⟨"exponential", 2000⟩⟩

def runJobAttemptsFrom (job : Nat → Except String α) (i : Nat) : Nat → Except String α
  | 0 => job i
  | 1 => job i
  | n + 2 =>
    match job i with
    | .ok r => .ok r
    | .error _ => runJobAttemptsFrom job (i + 1) (n + 1)

/-- Modelled from the spec: the retry semantics of the external queue
library that `initializeQueue` configures (`attempts: 3`) — the WHOLE job
(`processAnalysisJob`, hence every pipeline stage) is re-attempted after a
failure until the attempt budget is exhausted; the backoff options only
delay re-attempts.  The repository's own code contains no retry logic: the
worker re-throws (`throw error; // Re-throw for queue retry logic`). -/
def runJobAttempts (attempts : Nat) (job : Nat → Except String α) : Except String α :=
  runJobAttemptsFrom job 0 attempts

/-- The in-memory fallback queue (`MemoryQueue.processNext`) runs a job once;
a failure is only logged (`console.error('Memory queue job failed:', …)`) and
never retried. -/
def memoryQueueRun (job : Except String α) : Option α := job.toOption

/-! ## Theorems

### C4: best-match selection -/

/-- The spec's tie-break after years: higher confidence tier, then strictly
shorter context. -/
def specTieBreak (x y : FinancialMatch) : Bool :=
  if confidenceOrder x.confidence ≠ confidenceOrder y.confidence then
    decide (confidenceOrder x.confidence > confidenceOrder y.confidence)
  else decide (x.context.length < y.context.length)

/-- The ordering described by the spec for best-match selection: `x` strictly
outranks `y` iff `x` has the more recent explicit year (a candidate with a
year outranks one without), or years tie and `x` has the higher confidence
tier, or those tie too and `x` has the strictly shorter context. -/
def specOutranks (x y : FinancialMatch) : Bool :=
  match x.year, y.year with
  | some yx, some yy => if yx ≠ yy then decide (yx > yy) else specTieBreak x y
  | some _, none => true
  | none, some _ => false
  | none, none => specTieBreak x y

/-- The comparator is induced by this lexicographic key. -/
def matchKey (m : FinancialMatch) : ℤ × ℤ × ℤ × ℤ :=
  ((match m.year with | some _ => 0 | none => 1),
   (match m.year with | some y => -(y : ℤ) | none => 0),
   -(confidenceOrder m.confidence : ℤ),
   (m.context.length : ℤ))

def keyLt (a b : ℤ × ℤ × ℤ × ℤ) : Prop :=
  a.1 < b.1 ∨ (a.1 = b.1 ∧ (a.2.1 < b.2.1 ∨ (a.2.1 = b.2.1 ∧
    (a.2.2.1 < b.2.2.1 ∨ (a.2.2.1 = b.2.2.1 ∧ a.2.2.2 < b.2.2.2)))))

theorem keyLt_trans {a b c : ℤ × ℤ × ℤ × ℤ} (h1 : keyLt a b) (h2 : keyLt b c) :
    keyLt a c := by
  obtain ⟨a1, a2, a3, a4⟩ := a
  obtain ⟨b1, b2, b3, b4⟩ := b
  obtain ⟨c1, c2, c3, c4⟩ := c
  simp only [keyLt] at *
  omega

theorem keyLt_irrefl (a : ℤ × ℤ × ℤ × ℤ) : ¬ keyLt a a := by
  obtain ⟨a1, a2, a3, a4⟩ := a
  simp only [keyLt]
  omega

theorem keyLe_lt_trans {a b c : ℤ × ℤ × ℤ × ℤ} (h1 : ¬ keyLt b a) (h2 : keyLt b c) :
    keyLt a c := by
  obtain ⟨a1, a2, a3, a4⟩ := a
  obtain ⟨b1, b2, b3, b4⟩ := b
  obtain ⟨c1, c2, c3, c4⟩ := c
  simp only [keyLt] at *
  omega

theorem matchCmpTie_neg_iff (x y : FinancialMatch) :
    matchCmpTie x y < 0 ↔
      (-(confidenceOrder x.confidence : ℤ) < -(confidenceOrder y.confidence : ℤ) ∨
       (-(confidenceOrder x.confidence : ℤ) = -(confidenceOrder y.confidence : ℤ) ∧
        (x.context.length : ℤ) < (y.context.length : ℤ))) := by
  simp only [matchCmpTie]
  split <;> omega

theorem matchCmp_neg_iff_keyLt (x y : FinancialMatch) :
    matchCmp x y < 0 ↔ keyLt (matchKey x) (matchKey y) := by
  rcases hx : x.year with _ | yx <;> rcases hy : y.year with _ | yy <;>
    simp only [matchCmp, matchKey, keyLt, hx, hy, true_and, and_true]
  · rw [matchCmpTie_neg_iff]
    simp
  · simp
  · simp
  · split
    · rename_i hne
      simp only [lt_self_iff_false, false_or, true_and]
      constructor
      · intro h
        left
        omega
      · intro h
        rcases h with h | ⟨h, _⟩ <;> omega
    · rw [matchCmpTie_neg_iff]
      rename_i hne
      simp only [lt_self_iff_false, false_or, true_and]
      constructor
      · intro h
        right
        exact ⟨by omega, h⟩
      · intro h
        rcases h with h | ⟨_, h⟩
        · omega
        · exact h

theorem specTieBreak_iff (x y : FinancialMatch) :
    specTieBreak x y = true ↔ matchCmpTie x y < 0 := by
  unfold specTieBreak matchCmpTie
  split <;> split <;> simp only [decide_eq_true_eq] <;> omega

theorem specOutranks_iff_cmp_neg (x y : FinancialMatch) :
    specOutranks x y = true ↔ matchCmp x y < 0 := by
  have htie := specTieBreak_iff x y
  rcases hx : x.year with _ | yx <;> rcases hy : y.year with _ | yy <;>
    simp only [specOutranks, matchCmp, hx, hy]
  · exact htie
  · simp
  · simp
  · split
    · simp only [decide_eq_true_eq]
      omega
    · exact htie

theorem betterOf_cases (m y : FinancialMatch) : betterOf m y = m ∨ betterOf m y = y := by
  unfold betterOf
  split
  · right; rfl
  · left; rfl

theorem not_cmp_self_neg (m : FinancialMatch) : ¬ matchCmp m m < 0 := by
  rw [matchCmp_neg_iff_keyLt]
  exact keyLt_irrefl _

theorem not_cmp_first_betterOf (m y : FinancialMatch) :
    ¬ matchCmp m (betterOf m y) < 0 := by
  unfold betterOf
  split
  · rename_i hlt
    rw [matchCmp_neg_iff_keyLt] at hlt ⊢
    intro hmy
    exact keyLt_irrefl _ (keyLt_trans hlt hmy)
  · exact not_cmp_self_neg m

theorem not_cmp_second_betterOf (m y : FinancialMatch) :
    ¬ matchCmp y (betterOf m y) < 0 := by
  unfold betterOf
  split
  · exact not_cmp_self_neg y
  · rename_i hge
    exact hge

theorem foldl_betterOf_mem (m : FinancialMatch) (l : List FinancialMatch) :
    l.foldl betterOf m = m ∨ l.foldl betterOf m ∈ l := by
  induction l generalizing m with
  | nil => left; rfl
  | cons y t ih =>
    simp only [List.foldl_cons]
    rcases ih (betterOf m y) with h | h
    · rcases betterOf_cases m y with hb | hb
      · left; rw [h, hb]
      · right; rw [h, hb]; exact List.mem_cons_self _ _
    · right; exact List.mem_cons_of_mem _ h

theorem foldl_betterOf_min (l : List FinancialMatch) (m : FinancialMatch) :
    ∀ x, (x = m ∨ x ∈ l) → ¬ matchCmp x (l.foldl betterOf m) < 0 := by
  induction l generalizing m with
  | nil =>
    intro x hx
    rcases hx with rfl | h
    · exact not_cmp_self_neg x
    · simp at h
  | cons y t ih =>
    intro x hx
    simp only [List.foldl_cons]
    have hm' := ih (betterOf m y) (betterOf m y) (Or.inl rfl)
    rcases hx with rfl | hx
    · intro hcon
      rw [matchCmp_neg_iff_keyLt] at hcon hm'
      have h1 := not_cmp_first_betterOf x y
      rw [matchCmp_neg_iff_keyLt] at h1
      exact hm' (keyLe_lt_trans h1 hcon)
    · rcases List.mem_cons.mp hx with rfl | hx
      · intro hcon
        rw [matchCmp_neg_iff_keyLt] at hcon hm'
        have h2 := not_cmp_second_betterOf m x
        rw [matchCmp_neg_iff_keyLt] at h2
        exact hm' (keyLe_lt_trans h2 hcon)
      · exact ih (betterOf m y) x (Or.inr hx)

/-- C4: For every non-empty list of `FinancialMatch` candidates,
`selectBestMatch` returns exactly one of the candidates (no averaging), and
the returned candidate is maximal under the documented ordering: no other
candidate outranks it by more recent explicit year (a candidate with a year
outranking one without), then higher confidence tier, then shorter context. -/
theorem C4_selectBestMatch_maximal (ms : List FinancialMatch) (h : ms ≠ []) :
    ∃ m, selectBestMatch ms = some m ∧ m ∈ ms ∧
      ∀ x ∈ ms, specOutranks x m = false := by
  match ms with
  | [] => exact absurd rfl h
  | [m0] =>
    refine ⟨m0, rfl, List.mem_singleton_self m0, ?_⟩
    intro x hx
    rw [List.mem_singleton] at hx
    subst hx
    exact Bool.eq_false_iff.mpr fun hc =>
      not_cmp_self_neg x ((specOutranks_iff_cmp_neg x x).mp hc)
  | m0 :: y :: t =>
    refine ⟨(y :: t).foldl betterOf m0, rfl, ?_, ?_⟩
    · rcases foldl_betterOf_mem m0 (y :: t) with h1 | h1
      · rw [h1]; exact List.mem_cons_self _ _
      · exact List.mem_cons_of_mem _ h1
    · intro x hx
      have hmin := foldl_betterOf_min (y :: t) m0 x (List.mem_cons.mp hx)
      exact Bool.eq_false_iff.mpr fun hc =>
        hmin ((specOutranks_iff_cmp_neg x _).mp hc)

/-- A concrete candidate list for `C4_selectBestMatch_maximal`: the winner is
the 2023 high-confidence "net profit" match. -/
def bestMatchExample : List FinancialMatch :=
  [⟨100000000, usdCurrency, "underlying net profit of $100M", some 2022, .low⟩,
   ⟨80000000, usdCurrency, "net profit of $80M", some 2023, .high⟩]

theorem C4_selectBestMatch_maximal_witness :
    bestMatchExample ≠ [] ∧
      ∃ m, selectBestMatch bestMatchExample = some m ∧ m ∈ bestMatchExample ∧
        ∀ x ∈ bestMatchExample, specOutranks x m = false :=
  ⟨by decide, C4_selectBestMatch_maximal bestMatchExample (by decide)⟩

/-! ### C9: formatting thresholds -/

/-- C9: the currency pretty-printer is a pure function of its arguments whose
scale thresholds satisfy: for a non-null value `v`, `v ≥ 1e9` produces the
`B` rendering (value divided by 1e9 at one decimal place), else `v ≥ 1e6` the
`M` rendering, else `v ≥ 1e3` the `K` rendering, each prefixed with the
currency symbol. -/
theorem C9_formatFinancialValue_thresholds (v : ℚ) (c : CurrencyInfo)
    (hsym : c.symbol ≠ "") :
    (v ≥ 1000000000 →
      formatFinancialValue (some v) "currency" (some c) =
        c.symbol ++ toFixed1 (v / 1000000000) ++ "B") ∧
    (v < 1000000000 → v ≥ 1000000 →
      formatFinancialValue (some v) "currency" (some c) =
        c.symbol ++ toFixed1 (v / 1000000) ++ "M") ∧
    (v < 1000000 → v ≥ 1000 →
      formatFinancialValue (some v) "currency" (some c) =
        c.symbol ++ toFixed1 (v / 1000) ++ "K") := by
  simp only [formatFinancialValue, if_pos rfl, if_neg hsym]
  refine ⟨fun h1 => ?_, fun h1 h2 => ?_, fun h1 h2 => ?_⟩
  · rw [if_pos h1]
    simp
  · rw [if_neg (not_le.mpr h1), if_pos h2]
    simp
  · rw [if_neg (not_le.mpr (by linarith : v < 1000000000)),
      if_neg (not_le.mpr h1), if_pos h2]
    simp

theorem C9_formatFinancialValue_thresholds_witness :
    usdCurrency.symbol ≠ "" ∧
      formatFinancialValue (some 2610000000) "currency" (some usdCurrency) =
        usdCurrency.symbol ++ toFixed1 ((2610000000 : ℚ) / 1000000000) ++ "B" :=
  ⟨by decide,
    (C9_formatFinancialValue_thresholds 2610000000 usdCurrency (by decide)).1
      (by norm_num)⟩

/-! ### C10: the enhanced parser assumes millions -/

/-- C10 (implicit): when the matched value string carries no scale token at
all — neither `thousand`/`million`/`billion` nor a bare `k`/`m`/`b` in its
cleaned form — `parseFinancialValueEnhanced` multiplies the parsed literal by
1,000,000 rather than returning it unscaled: the result is exactly the parsed
literal mapped through multiplication by one million (so every non-null
result is the literal times one million). -/
theorem C10_parse_assumes_millions (valueStr : String)
    (hb : jsIncludes (enhancedCleanValue valueStr) "billion" = false)
    (hm : jsIncludes (enhancedCleanValue valueStr) "million" = false)
    (ht : jsIncludes (enhancedCleanValue valueStr) "thousand" = false)
    (h1 : jsIncludes (enhancedCleanValue valueStr) "b" = false)
    (h2 : jsIncludes (enhancedCleanValue valueStr) "m" = false)
    (h3 : jsIncludes (enhancedCleanValue valueStr) "k" = false) :
    parseFinancialValueEnhanced valueStr =
      (jsParseFloat (removeChars (fun ch => !(ch.isDigit || ch = '.'))
        (enhancedCleanValue valueStr))).map (fun n => n * 1000000) := by
  unfold parseFinancialValueEnhanced
  rcases hp : jsParseFloat (removeChars (fun ch => !(ch.isDigit || ch = '.'))
      (enhancedCleanValue valueStr)) with _ | n
  · simp
  · rw [hb, hm, ht, h1, h2, h3]
    simp

theorem C10_parse_assumes_millions_witness :
    jsIncludes (enhancedCleanValue "4,241") "billion" = false ∧
      jsIncludes (enhancedCleanValue "4,241") "million" = false ∧
      jsIncludes (enhancedCleanValue "4,241") "thousand" = false ∧
      jsIncludes (enhancedCleanValue "4,241") "b" = false ∧
      jsIncludes (enhancedCleanValue "4,241") "m" = false ∧
      jsIncludes (enhancedCleanValue "4,241") "k" = false ∧
      parseFinancialValueEnhanced "4,241" =
        (jsParseFloat (removeChars (fun ch => !(ch.isDigit || ch = '.'))
          (enhancedCleanValue "4,241"))).map (fun n => n * 1000000) :=
  ⟨by decide, by decide, by decide, by decide, by decide, by decide,
    C10_parse_assumes_millions "4,241" (by decide) (by decide) (by decide)
      (by decide) (by decide) (by decide)⟩

/-! ### C6: employee counts lie in the plausible range -/

theorem employeeRangeFilter_range (value v : Nat)
    (h : employeeRangeFilter value = some v) : 500 ≤ v ∧ v ≤ 500000 := by
  unfold employeeRangeFilter at h
  split at h
  · rename_i hc
    simp only [Option.some.injEq] at h
    simp only [Bool.and_eq_true, decide_eq_true_eq] at hc
    omega
  · exact absurd h (by simp)

theorem employeeValue_range (m : String) (v : Nat) (h : employeeValue m = some v) :
    500 ≤ v ∧ v ≤ 500000 := by
  unfold employeeValue at h
  split at h
  · exact absurd h (by simp)
  · exact employeeRangeFilter_range _ v h

theorem employeeMatchesLoop_range (ms : List String) (v : Nat)
    (h : employeeMatchesLoop ms = some v) : 500 ≤ v ∧ v ≤ 500000 := by
  induction ms with
  | nil => simp [employeeMatchesLoop] at h
  | cons m rest ih =>
    unfold employeeMatchesLoop at h
    split at h
    · rename_i w he
      simp only [Option.some.injEq] at h
      subst h
      exact employeeValue_range m _ he
    · exact ih h

theorem employeesKeywordLoop_nil (allText lowerText : String) :
    employeesKeywordLoop allText lowerText [] = none := rfl

theorem employeesKeywordLoop_cons (allText lowerText kw : String)
    (rest : List String) :
    employeesKeywordLoop allText lowerText (kw :: rest) =
      match jsIndexOf lowerText kw with
      | some keywordIndex =>
        match employeeMatchesLoop (reGlobal employeeNumRE
            (jsSubstring allText (keywordIndex - 50)
              (min allText.length (keywordIndex + 150)))) with
        | some v => some v
        | none => employeesKeywordLoop allText lowerText rest
      | none => employeesKeywordLoop allText lowerText rest := rfl

theorem employeesKeywordLoop_range (allText lowerText : String)
    (kws : List String) (v : Nat)
    (h : employeesKeywordLoop allText lowerText kws = some v) :
    500 ≤ v ∧ v ≤ 500000 := by
  induction kws with
  | nil => rw [employeesKeywordLoop_nil] at h; exact absurd h (by simp)
  | cons kw rest ih =>
    rw [employeesKeywordLoop_cons] at h
    split at h
    · split at h
      · rename_i w hm
        simp only [Option.some.injEq] at h
        subst h
        exact employeeMatchesLoop_range _ _ hm
      · exact ih h
    · exact ih h

theorem employeeFallbackLoop_range (ms : List String) (v : Nat)
    (h : employeeFallbackLoop ms = some v) : 500 ≤ v ∧ v ≤ 500000 := by
  induction ms with
  | nil => simp [employeeFallbackLoop] at h
  | cons m rest ih =>
    unfold employeeFallbackLoop at h
    split at h
    · split at h
      · rename_i w hg
        simp only [Option.some.injEq] at h
        rcases ho : grp _ 1 with _ | g
        · rw [ho] at hg
          exact absurd hg (by simp)
        · rw [ho] at hg
          simp only [Option.some_bind] at hg
          subst h
          exact employeeValue_range g _ hg
      · exact ih h
    · exact ih h

/-- C6: whenever `extractEmployees` returns a non-null employee count, the
count lies in the configured plausible enterprise range — floor 500, ceiling
500000; every candidate outside the range is discarded and never returned. -/
theorem C6_employees_plausible_range (d : AnalysisData) (v : Nat)
    (h : extractEmployees d = some v) : 500 ≤ v ∧ v ≤ 500000 := by
  unfold extractEmployees at h
  simp only [] at h
  split at h
  · exact absurd h (by simp)
  · split at h
    · rename_i w hk
      simp only [Option.some.injEq] at h
      subst h
      exact employeesKeywordLoop_range _ _ _ _ hk
    · exact employeeFallbackLoop_range _ v h

/-- Concrete input for the C6 witness. -/
def dEmployeesStated : AnalysisData :=
  ⟨"We had total employees of 5,914 at year end.", [], [], [], []⟩

theorem C6_employees_plausible_range_witness :
    extractEmployees dEmployeesStated = some 5914 ∧ 500 ≤ 5914 ∧ 5914 ≤ 500000 :=
  ⟨by decide, C6_employees_plausible_range dEmployeesStated 5914 (by decide)⟩

/-! ### C7: the not-disclosed short-circuit exists only for employees -/

/-- A document text whose revenue is explicitly "not disclosed" and which
still contains a revenue figure elsewhere. -/
def dRevenueNotDisclosed : AnalysisData :=
  ⟨"Total revenue: not disclosed. Total revenue of $4 million.", [], [], [], []⟩

/-- C7 counterexample: the claim asserts that a text explicitly stating a
metric is not disclosed short-circuits extraction of that metric to `null`;
but revenue extraction has no such short-circuit — on a text containing
"not disclosed" in the revenue context it still extracts $4,000,000. -/
theorem C7_counterexample :
    jsIncludes (jsToLowerCase (getAllAnalysisText dRevenueNotDisclosed))
        "not disclosed" = true ∧
      extractRevenue dRevenueNotDisclosed = some 4000000 := by
  constructor
  · decide
  · have hms : extractRevenueMultiStrategy dRevenueNotDisclosed = none := by decide
    have hfv : findFinancialValue
        (jsToLowerCase (getAllAnalysisText dRevenueNotDisclosed)) "total revenue" =
        some 4000000 := by
      have h1 : findFinancialValue
          (jsToLowerCase (getAllAnalysisText dRevenueNotDisclosed)) "total revenue" =
          some ((((4 : ℕ) : ℚ) + ((0 : ℕ) : ℚ) / (10 : ℚ) ^ (0 : ℕ)) * 1000000) := rfl
      rw [h1]
      norm_num
    have hfb : extractRevenueFallback dRevenueNotDisclosed = some 4000000 := by
      unfold extractRevenueFallback
      simp only [financialKeywordsRevenue, firstKeywordValue, hfv]
      norm_num
    unfold extractRevenue extractRevenueE
    rw [hms]
    exact hfb

/-- C7 (amended): only the employees extractor short-circuits on
not-available phrasing — whenever the analysis text has employee context
(`employee`/`workforce`/`headcount`) and contains one of the not-available
phrases, `extractEmployees` returns `null` before any number pattern runs;
revenue and profit extraction have no such short-circuit. -/
theorem C7_employees_short_circuit (d : AnalysisData)
    (hctx : (jsIncludes (jsToLowerCase (getAllAnalysisText d)) "employee" ||
       jsIncludes (jsToLowerCase (getAllAnalysisText d)) "workforce" ||
       jsIncludes (jsToLowerCase (getAllAnalysisText d)) "headcount") = true)
    (hp : notAvailablePatterns.any
        (fun p => jsIncludes (jsToLowerCase (getAllAnalysisText d)) p) = true) :
    extractEmployees d = none := by
  unfold extractEmployees
  simp only [hctx, hp]
  rfl

/-- Scenario C input: `"employee headcount: not disclosed"`. -/
def dEmployeesNotDisclosed : AnalysisData :=
  ⟨"Our employee headcount: not disclosed this year.", [], [], [], []⟩

theorem C7_employees_short_circuit_witness :
    (jsIncludes (jsToLowerCase (getAllAnalysisText dEmployeesNotDisclosed)) "employee" ||
       jsIncludes (jsToLowerCase (getAllAnalysisText dEmployeesNotDisclosed)) "workforce" ||
       jsIncludes (jsToLowerCase (getAllAnalysisText dEmployeesNotDisclosed)) "headcount") = true ∧
      extractEmployees dEmployeesNotDisclosed = none :=
  ⟨by decide, C7_employees_short_circuit dEmployeesNotDisclosed (by decide) (by decide)⟩

/-! ### C5: the extraction entry points never throw -/

theorem extractRevenueE_ok (d : AnalysisData) : ∃ r, extractRevenueE d = .ok r := by
  unfold extractRevenueE
  rcases extractRevenueMultiStrategy d with _ | v
  · exact ⟨_, rfl⟩
  · simp only []
    split
    · exact ⟨_, rfl⟩
    · exact ⟨_, rfl⟩

theorem extractProfitE_ok (d : AnalysisData) : ∃ r, extractProfitE d = .ok r := by
  unfold extractProfitE
  rcases extractProfitIsolated d with e | r
  · exact ⟨_, rfl⟩
  · simp only []
    split
    · exact ⟨_, rfl⟩
    · exact ⟨_, rfl⟩

/-- C5: the Normalizer extraction entry points absorb internal failures
rather than propagating them.  First conjunct: the strategy loop ignores an
erroring (throwing) strategy wherever it occurs in the list, exactly as if
it were absent.  Second and third conjuncts: the revenue and profit entry
points, which wrap concrete strategies that really do throw (their patterns
are invalid for `$`-suffixed currency symbols), always return `ok` of their
`number | null` value — never an exception.  (`extractEmployees` contains no
throwing construct and is a total function by definition.) -/
theorem C5_extraction_never_throws :
    (∀ (validate : ℚ → Bool) (pre post : List (Except String (Option ℚ))) (e : String),
      runStrategies validate (pre ++ Except.error e :: post) =
        runStrategies validate (pre ++ post)) ∧
    (∀ d, extractRevenueE d = Except.ok (extractRevenue d)) ∧
    (∀ d, extractProfitE d = Except.ok (extractProfit d)) := by
  refine ⟨?_, ?_, ?_⟩
  · intro validate pre post e
    induction pre with
    | nil => rfl
    | cons s t ih =>
      cases s with
      | error e2 =>
        simp only [List.cons_append, runStrategies]
        exact ih
      | ok r =>
        cases r with
        | none =>
          simp only [List.cons_append, runStrategies]
          exact ih
        | some v =>
          simp only [List.cons_append, runStrategies]
          split
          · rfl
          · exact ih
  · intro d
    obtain ⟨r, hr⟩ := extractRevenueE_ok d
    rw [hr]
    unfold extractRevenue
    rw [hr]
  · intro d
    obtain ⟨r, hr⟩ := extractProfitE_ok d
    rw [hr]
    unfold extractProfit
    rw [hr]

/-! ### C3: currency resolution priority -/

/-- C3 counterexample: the claim says a more specific symbol such as `HK$`
in the candidate is never resolved as the bare `$`; but `detectCurrency`'s
priority list omits `HK$`, so a candidate value reading `HK$5 million`
resolves to the bare-`$` USD entry. -/
theorem C3_counterexample :
    jsIncludes "HK$5 million" "HK$" = true ∧
      detectCurrency "HK$5 million" "revenue of HK$5 million" = some usdCurrency ∧
      usdCurrency = ⟨"$", "USD", "US Dollar"⟩ :=
  ⟨by decide, by decide, rfl⟩

/-- C3 (amended): document-level resolution (`getExtractedCurrency`) does
scan with the most-specific-first priority list — any text containing `HK$`
resolves to the Hong Kong dollar, never to the bare `$` — and it defaults to
USD when no symbol and no code occurs at all.  The per-candidate
`detectCurrency`, however, scans only `RM`, `S$`, `€`, `£`, `¥`, `$` in that
order, so whenever none of the first five hits and the candidate value
contains a `$` anywhere (for example inside `HK$` or `A$`), the bare-`$`
USD entry is the resolved currency. -/
theorem C3_currency_priority (t vs ctx : String)
    (hhk : jsIncludes t "HK$" = true)
    (h1 : (jsIncludes vs "RM" ||
      jsIncludes (jsToLowerCase (vs ++ " " ++ ctx)) (jsToLowerCase "RM")) = false)
    (h2 : (jsIncludes vs "S$" ||
      jsIncludes (jsToLowerCase (vs ++ " " ++ ctx)) (jsToLowerCase "S$")) = false)
    (h3 : (jsIncludes vs "€" ||
      jsIncludes (jsToLowerCase (vs ++ " " ++ ctx)) (jsToLowerCase "€")) = false)
    (h4 : (jsIncludes vs "£" ||
      jsIncludes (jsToLowerCase (vs ++ " " ++ ctx)) (jsToLowerCase "£")) = false)
    (h5 : (jsIncludes vs "¥" ||
      jsIncludes (jsToLowerCase (vs ++ " " ++ ctx)) (jsToLowerCase "¥")) = false)
    (hd : jsIncludes vs "$" = true) :
    getExtractedCurrencyText t = some ⟨"HK$", "HKD", "Hong Kong Dollar"⟩ ∧
      detectCurrency vs ctx = some usdCurrency ∧
      (∀ u : String,
        (["HK$", "A$", "C$", "S$", "RM", "₹", "₱", "฿", "Rp", "₩", "¥", "€", "£",
            "$"].all (fun sym => !(jsIncludes u sym))) = true →
        (["INR", "CNY", "HKD", "THB", "IDR", "PHP", "KRW", "AUD", "CAD", "MYR",
            "SGD", "EUR", "GBP", "USD"].all
          (fun code => !(jsIncludes (jsToUpperCase u) code))) = true →
        getExtractedCurrencyText u = some usdCurrency) := by
  refine ⟨?_, ?_, ?_⟩
  · unfold getExtractedCurrencyText
    simp only [List.findSome?, hhk, if_true]
    rfl
  · unfold detectCurrency
    simp only [List.findSome?]
    rw [show currencyLookup "RM" = some ⟨"RM", "MYR", "Malaysian Ringgit"⟩ from rfl,
      show currencyLookup "S$" = some ⟨"S$", "SGD", "Singapore Dollar"⟩ from rfl,
      show currencyLookup "€" = some ⟨"€", "EUR", "Euro"⟩ from rfl,
      show currencyLookup "£" = some ⟨"£", "GBP", "British Pound"⟩ from rfl,
      show currencyLookup "¥" = some ⟨"¥", "JPY", "Japanese Yen"⟩ from rfl,
      show currencyLookup "$" = some usdCurrency from rfl]
    rw [h1, h2, h3, h4, h5, hd]
    simp
  · intro u hsym hcode
    simp only [List.all_cons, List.all_nil, Bool.and_eq_true, Bool.not_eq_true',
      and_true] at hsym hcode
    obtain ⟨s1, s2, s3, s4, s5, s6, s7, s8, s9, s10, s11, s12, s13, s14⟩ := hsym
    obtain ⟨c1, c2, c3, c4, c5, c6, c7, c8, c9, c10, c11, c12, c13, c14⟩ := hcode
    unfold getExtractedCurrencyText
    simp only [List.findSome?, s1, s2, s3, s4, s5, s6, s7, s8, s9, s10, s11, s12,
      s13, s14, c1, c2, c3, c4, c5, c6, c7, c8, c9, c10, c11, c12, c13, c14,
      if_false]
    rfl

theorem C3_currency_priority_witness :
    jsIncludes "revenue of HK$5 million" "HK$" = true ∧
      getExtractedCurrencyText "revenue of HK$5 million" =
        some ⟨"HK$", "HKD", "Hong Kong Dollar"⟩ ∧
      detectCurrency "HK$5 million" "revenue of HK$5 million" = some usdCurrency :=
  ⟨by decide,
    (C3_currency_priority "revenue of HK$5 million" "HK$5 million"
      "revenue of HK$5 million" (by decide) (by decide) (by decide) (by decide)
      (by decide) (by decide) (by decide)).1,
    (C3_currency_priority "revenue of HK$5 million" "HK$5 million"
      "revenue of HK$5 million" (by decide) (by decide) (by decide) (by decide)
      (by decide) (by decide) (by decide)).2.1⟩

/-! ### C1: profit > revenue is nulled but never flagged -/

def boExample : BusinessOverview :=
  { companyOverview := "Acme Corp is an enterprise software vendor"
    businessModel := "Subscription software"
    revenueStreams := ["subscriptions"]
    keyMetrics := []
    operationalChallenges := []
    hrPayrollRelevance := "n/a"
    industryClassification := "Software"
    competitivePosition := "n/a"
    extractionQuality := ⟨"high", "complete", "primary statements"⟩ }

def hrExample : HRInsights :=
  { summary := "stable workforce"
    businessContext := []
    workforceInsights := []
    operationalChallenges := []
    strategicPeopleInitiatives := []
    extractionQuality := ⟨"high", "complete"⟩ }

/-- Scenario E metrics as returned by the extraction stage: profit 5,000,000
exceeds revenue 4,000,000 and the stage did not flag the record. -/
def fmScenarioE : FinancialMetrics :=
  { revenue := ⟨some "4000000", none, none, "USD", "high",
      "Revenue was $4.0 million", "direct_statement"⟩
    profitLoss := ⟨"profit", some "5000000", none, "high",
      "Net profit of $5.0 million", []⟩
    employees := ⟨none, none, none, "low", "not stated"⟩
    assets := ⟨none, "USD", "low", "not stated"⟩
    validation := ⟨true, true, true, false, "extraction ok", "direct_statement"⟩ }

/-- C1 counterexample: an extracted profit of 5,000,000 exceeds the extracted
revenue of 4,000,000, yet the pipeline result carries
`validation.flaggedForReview = false` — no repository code sets the flag on
this violation, contrary to the claim. -/
theorem C1_counterexample :
    jsParseInt ((fmScenarioE.profitLoss.amount).getD "") = some 5000000 ∧
      jsParseInt ((fmScenarioE.revenue.current).getD "") = some 4000000 ∧
      5000000 > 4000000 ∧
      executeSequential (.ok boExample) (.ok fmScenarioE) (.ok hrExample) =
        .ok { businessOverview := boExample
              financialMetrics := fmScenarioE
              hrInsights := hrExample
              processingStats :=
                ⟨0, 0, 0, 0, true, true, true, some "sequential", none⟩ } ∧
      fmScenarioE.validation.flaggedForReview = false :=
  ⟨by decide, by decide, by decide, rfl, rfl⟩

/-- C1 (amended): the financial-dashboard chart template nulls the displayed
profit whenever truthy extracted profit exceeds truthy extracted revenue, so
the validated profit never exceeds the revenue; but no code sets
`validation.flaggedForReview` for the violation — the sequential pipeline
passes the extraction stage's metrics (and their flag) through unchanged,
and the flag is `true` only in the failsafe/fallback constants. -/
theorem C1_profit_validation (r p : Option ℚ) (rv pv : ℚ)
    (hr : r = some rv) (hrv : rv ≠ 0) :
    (chartValidatedProfit r p = some pv → pv ≠ 0 → pv ≤ rv) ∧
    (p = some pv → pv ≠ 0 → pv > rv → chartValidatedProfit r p = none) ∧
    (∀ s0 fm s2 res, executeSequential s0 (Except.ok fm) s2 = .ok res →
      res.financialMetrics = fm) ∧
    (∀ msg, (createFailsafeMetrics msg).validation.flaggedForReview = true) ∧
    defaultFinancials.validation.flaggedForReview = true := by
  subst hr
  refine ⟨?_, ?_, ?_, fun msg => rfl, rfl⟩
  · intro h hpv
    cases p with
    | none => exact absurd h (by simp [chartValidatedProfit])
    | some pw =>
      simp only [chartValidatedProfit] at h
      split at h
      · exact absurd h (by simp)
      · rename_i hc
        simp only [Option.some.injEq] at h
        subst h
        by_contra hlt
        push_neg at hlt
        exact hc (by simp [hrv, hpv, hlt])
  · intro hp hpv hgt
    subst hp
    simp [chartValidatedProfit, hrv, hpv, hgt]
  · intro s0 fm s2 res h
    cases s0 with
    | error e => simp [executeSequential] at h
    | ok bo =>
      cases s2 with
      | error e => simp [executeSequential] at h
      | ok hri =>
        simp only [executeSequential, Except.ok.injEq] at h
        rw [← h]

theorem C1_profit_validation_witness :
    some (4000000 : ℚ) = some (4000000 : ℚ) ∧ (4000000 : ℚ) ≠ 0 ∧
      chartValidatedProfit (some 4000000) (some 5000000) = none :=
  ⟨rfl, by norm_num,
    (C1_profit_validation (some 4000000) (some 5000000) 4000000 5000000 rfl
      (by norm_num)).2.1 rfl (by norm_num) (by norm_num)⟩

/-! ### C2: sequential aborts, parallel degrades -/

/-- C2 counterexample: in sequential mode a Stage 0 failure does not degrade
to the default business overview with processing continuing — it aborts the
run with a staged failure naming the business_overview stage. -/
theorem C2_counterexample :
    executeSequential (.error "AI service unavailable") (.ok defaultFinancials)
        (.ok hrExample) =
      .error ⟨"business_overview", "AI service unavailable"⟩ := rfl

/-- C2 (amended): in sequential mode the first failing stage aborts the run
with its own stage label (business_overview / financial / hr); the
default-value degradation for Stages 0/1 belongs to parallel mode, which
substitutes the default business overview (Stage 0) or the relaxed
re-extraction result (Stage 1), sets `partialSuccess`, and aborts only when
Stage 2 (HR insights) fails. -/
theorem C2_sequential_aborts_parallel_degrades :
    (∀ e s1 s2, executeSequential (.error e) s1 s2 =
      .error ⟨"business_overview", e⟩) ∧
    (∀ bo e s2, executeSequential (.ok bo) (.error e) s2 =
      .error ⟨"financial", e⟩) ∧
    (∀ bo fm e, executeSequential (.ok bo) (.ok fm) (.error e) =
      .error ⟨"hr", e⟩) ∧
    (∀ e s1r hri fm1, executeStagesParallel (.error e) (.ok fm1) s1r (.ok hri) =
      .ok { businessOverview := getDefaultBusinessOverview
            financialMetrics := fm1
            hrInsights := hri
            processingStats :=
              ⟨0, 0, 0, 0, false, true, true, some "parallel", some true⟩ }) ∧
    (∀ bo e s1r hri, executeStagesParallel (.ok bo) (.error e) s1r (.ok hri) =
      .ok { businessOverview := bo
            financialMetrics := extractFinancialMetricsRelaxed s1r
            hrInsights := hri
            processingStats :=
              ⟨0, 0, 0, 0, true, false, true, some "parallel", some true⟩ }) ∧
    (∀ s0 s1 s1r e, executeStagesParallel s0 s1 s1r (.error e) =
      .error "HR insights generation failed - this is required for analysis") :=
  ⟨fun e s1 s2 => rfl, fun bo e s2 => rfl, fun bo fm e => rfl,
    fun e s1r hri fm1 => rfl, fun bo e s1r hri => rfl, fun s0 s1 s1r e => rfl⟩

/-! ### C8: retries are queue-level, whole-job, exponential -/

/-- C8 counterexample: the orchestrator performs no HR-stage retry — one HR
failure aborts the run — and the only configured retry policy (the queue's
`defaultJobOptions`) uses exponential, not linear, backoff. -/
theorem C8_counterexample :
    executeSequential (.ok boExample) (.ok defaultFinancials)
        (.error "hr model crashed") = .error ⟨"hr", "hr model crashed"⟩ ∧
      analysisQueueJobOptions.backoff.backoffType = "exponential" ∧
      analysisQueueJobOptions.backoff.backoffType ≠ "linear" :=
  ⟨rfl, rfl, by decide⟩

/-- C8 (amended): retries happen at the analysis-queue level and re-run the
whole job: the Redis-backed queue is configured with `attempts: 3` and
exponential backoff at base delay 2000 ms, so a job whose first two attempts
fail and whose third succeeds completes successfully (every stage runs again
on each attempt), a job failing on all three attempts surfaces the final
failure, and the in-memory fallback queue never retries. -/
theorem C8_queue_level_retries :
    analysisQueueJobOptions.attempts = 3 ∧
    analysisQueueJobOptions.backoff = ⟨"exponential", 2000⟩ ∧
    (∀ (α : Type) (job : Nat → Except String α) (e0 e1 : String) (r : α),
      job 0 = .error e0 → job 1 = .error e1 → job 2 = .ok r →
      runJobAttempts 3 job = .ok r) ∧
    (∀ (α : Type) (job : Nat → Except String α) (e : Nat → String),
      (∀ n, job n = .error (e n)) → runJobAttempts 3 job = .error (e 2)) ∧
    (∀ (α : Type) (e : String),
      memoryQueueRun (Except.error e : Except String α) = none) := by
  have hstep : ∀ (α : Type) (job : Nat → Except String α),
      runJobAttempts 3 job =
        match job 0 with
        | .ok r => .ok r
        | .error _ =>
          match job 1 with
          | .ok r => .ok r
          | .error _ => job 2 := fun α job => rfl
  refine ⟨rfl, rfl, ?_, ?_, fun α e => rfl⟩
  · intro α job e0 e1 r h0 h1 h2
    rw [hstep, h0, h1, h2]
  · intro α job e h
    rw [hstep, h 0, h 1, h 2]

/-- A job behaviour failing on the first two attempts and succeeding on the
third. -/
def jobEventually : Nat → Except String Nat :=
  fun n => if n < 2 then .error "transient failure" else .ok 7

theorem C8_queue_level_retries_witness :
    jobEventually 0 = .error "transient failure" ∧
      jobEventually 1 = .error "transient failure" ∧
      jobEventually 2 = .ok 7 ∧
      runJobAttempts 3 jobEventually = .ok 7 :=
  ⟨rfl, rfl, rfl,
    (C8_queue_level_retries.2.2.1) Nat jobEventually "transient failure"
      "transient failure" 7 rfl rfl rfl⟩

end DPT
